import Mathlib

/-!
Rainwater-harvesting water balance (`waterbalance_new.c`).

A shallow embedding of the daily water-balance step, the drought scan and the
per-capacity day loop of `main`, followed by theorems about them.

Modelling conventions.
* A C `double` is a rational (`ℚ`). In the definitions named as in the source
  (`waterbalance`, `accumulate`, `finalize`, ...) the arithmetic is exact: it is the
  real-number arithmetic the program approximates, which decides every property of
  order, of flags and of zero values.
* Where the rounding of the doubles matters (exact identities between sums, equality of
  quotients), the definitions with the suffix `R` take the rounding `r` that follows every
  arithmetic operation on doubles; `rnd64` is the rounding of IEEE-754 binary64 (to
  nearest, ties to even), and with `r = id` they are the exact definitions.
* A `double` division is `fdiv`, which yields `none` when the divisor is zero: C does not
  trap there, IEEE-754 gives NaN (for `0/0`) or an infinity, and `none` stands for that
  non-finite result.
* A C `int` counter is a `Nat`: every counter of the program starts at 0, is only
  incremented or reset to 0, and is bounded by the number of days (at most 10000).
-/

namespace WaterBalance

/-- The C function `min` (lines 5-7). -/
def min (a b : ℚ) : ℚ := if a < b then a else b

/-- The C function `max` (lines 9-11). -/
def max (a b : ℚ) : ℚ := if a > b then a else b

/-- The record `struct Daily` (lines 35-44). -/
structure Daily where
  day : Nat
  C : ℚ
  V_in : ℚ
  V_served : ℚ
  V_stored : ℚ
  O_loss : ℚ
  D_met : Nat
  D_failed : Nat
  deriving DecidableEq, Repr

/-- The record `struct Reliability` (lines 46-54); a field assigned from a division is an
`Option ℚ`, see `fdiv`. -/
structure Reliability where
  days_tot : Nat
  C : ℚ
  temp_rel : Option ℚ
  vol_rel : Option ℚ
  o_rel : Option ℚ
  failure : Option ℚ
  drought_max : Nat
  deriving DecidableEq, Repr

/-- The record `struct Supply` (lines 56-67). `main` never assigns `days_tot` of this
record, which comes from `malloc`: the value is indeterminate, `none`. -/
structure Supply where
  days_tot : Option Nat
  C : ℚ
  failed_max : Nat
  failed_average : Option ℚ
  unmet_max : Nat
  unmet_average : Option ℚ
  met_max : Nat
  met_average : Option ℚ
  deriving DecidableEq, Repr

/-- The record `struct Overflow` (lines 69-76); `ov_max` is an `int` slot, and
`days_tot` is never assigned by `main` (indeterminate, `none`). -/
structure Overflow where
  days_tot : Option Nat
  C : ℚ
  ov_days_max : Nat
  ov_day_average : Option ℚ
  ov_max : Int
  ov_average : Option ℚ
  deriving DecidableEq, Repr

/-- The function `waterbalance` (lines 78-135): it fills the record `d` it is handed
(every field but `day`) from the stored volume `V0`, the day's precipitation `P_d`, the
physical constants and the capacity `C`. -/
def waterbalance (d : Daily) (V0 P_d A_r RC FF f_m D C : ℚ) : Daily :=
  let V_tot := P_d / 1000 * A_r * RC
  let V_FF := FF / 1000 * A_r
  let V_in := if V_tot ≥ V_FF then (1 - f_m) * (V_tot - V_FF) else 0
  let V_available := V0 + V_in
  let V_served := min V_available D
  let D_met : Nat := if V_served = D then 1 else 0
  let D_failed : Nat := if V_served = D then 0 else if V_served = 0 then 1 else 0
  let O_loss := max 0 (V_available - V_served - C)
  let V_stored := if O_loss > 0 then C else V_available - V_served
  { d with
    C := C, V_in := V_in, V_served := V_served, D_met := D_met, D_failed := D_failed,
    O_loss := O_loss, V_stored := V_stored }

/-- A `double` division: `none` is the non-finite value C produces for a zero divisor. -/
def fdiv (a b : ℚ) : Option ℚ := if b = 0 then none else some (a / b)

/-- The conversion of a `double` to `int` (truncation toward zero), as in the assignment
`overflow[j].ov_max = O_vol_max`; a value outside the range of `int` is not modelled. -/
def toInt (x : ℚ) : Int := Int.tdiv x.num (x.den : Int)

/-- The physical constants of `main` (lines 143-148). -/
structure Params where
  A_r : ℚ
  RC : ℚ
  FF : ℚ
  f_m : ℚ
  D : ℚ
  deriving DecidableEq, Repr

/-- The constants `main` is compiled with (Sydney, lines 144-148). -/
def sydney : Params :=
  { A_r := 50, RC := 85 / 100, FF := 75 / 100, f_m := 1 / 10, D := 395 / 10000 }

/-- One step of the drought scan (body of the loop at lines 194-204) on the pair
`(drought, drought_max)`. -/
def droughtStep (s : Nat × Nat) (P : ℚ) : Nat × Nat :=
  if P = 0 then
    let drought := s.1 + 1
    (drought, if drought > s.2 then drought else s.2)
  else
    (0, s.2)

/-- The drought scan of `main` (lines 189-204): the final `drought_max`. -/
def droughtScan (precipitation : List ℚ) : Nat :=
  (precipitation.foldl droughtStep (0, 0)).2

/-- The variables of the per-capacity analysis in `main` (lines 211-243) that the day
loop updates, together with the part of the array `daily` written so far. -/
structure LoopState where
  daily : List Daily
  V0 : ℚ
  O_count : Nat
  O_ct_tot : Nat
  O_ct_max : Nat
  O_vol_sum : ℚ
  O_vol_max : ℚ
  O_tot : ℚ
  O_event : Nat
  D_failed : Nat
  D_failed_max : Nat
  D_failed_sum : Nat
  failed_event : Nat
  D_unmet : Nat
  D_unmet_sum : Nat
  D_unmet_max : Nat
  unmet_event : Nat
  D_met : Nat
  D_met_sum : Nat
  D_met_max : Nat
  met_event : Nat
  V_in_tot : ℚ
  V_served : ℚ
  deriving DecidableEq, Repr

/-- The initial values of lines 211-238. -/
def LoopState.init : LoopState :=
  { daily := [], V0 := 0, O_count := 0, O_ct_tot := 0, O_ct_max := 0, O_vol_sum := 0,
    O_vol_max := 0, O_tot := 0, O_event := 0, D_failed := 0, D_failed_max := 0,
    D_failed_sum := 0, failed_event := 0, D_unmet := 0, D_unmet_sum := 0,
    D_unmet_max := 0, unmet_event := 0, D_met := 0, D_met_sum := 0, D_met_max := 0,
    met_event := 0, V_in_tot := 0, V_served := 0 }

/-- The sums of lines 264-275: carried storage, fully-met days, served volume, overflow
and inflow totals; the day's record joins `daily`. -/
def accumulate (d : Daily) (s : LoopState) : LoopState :=
  { s with
    daily := s.daily ++ [d],
    V0 := d.V_stored,
    D_met_sum := s.D_met_sum + d.D_met,
    V_served := s.V_served + d.V_served,
    O_tot := s.O_tot + d.O_loss,
    V_in_tot := s.V_in_tot + d.V_in }

/-- The inner block of lines 283-294, run on a day with `V_served < D`: the failure
streak. -/
def failedAnalysis (d : Daily) (s : LoopState) : LoopState :=
  if d.D_failed = 1 then
    let D_failed := s.D_failed + 1
    { s with
      D_failed := D_failed,
      D_failed_sum := s.D_failed_sum + 1,
      D_failed_max := if D_failed > s.D_failed_max then D_failed else s.D_failed_max,
      failed_event := if D_failed = 1 then s.failed_event + 1 else s.failed_event }
  else
    { s with D_failed := 0 }

/-- The water supply analysis of lines 277-313. -/
def supplyAnalysis (D : ℚ) (d : Daily) (s : LoopState) : LoopState :=
  if d.V_served < D then
    let D_unmet := s.D_unmet + 1
    let s1 := { s with D_met := 0, D_unmet := D_unmet, D_unmet_sum := s.D_unmet_sum + 1 }
    let s2 := failedAnalysis d s1
    { s2 with
      D_unmet_max := if D_unmet > s2.D_unmet_max then D_unmet else s2.D_unmet_max,
      unmet_event := if D_unmet = 1 then s2.unmet_event + 1 else s2.unmet_event }
  else
    let D_met := s.D_met + 1
    { s with
      D_unmet := 0,
      D_met := D_met,
      D_met_max := if D_met > s.D_met_max then D_met else s.D_met_max,
      met_event := if D_met = 1 then s.met_event + 1 else s.met_event }

/-- The overflow analysis of lines 315-332. -/
def overflowAnalysis (d : Daily) (s : LoopState) : LoopState :=
  if d.O_loss > 0 then
    let O_count := s.O_count + 1
    let O_vol_sum := s.O_vol_sum + d.O_loss
    { s with
      O_count := O_count,
      O_ct_tot := s.O_ct_tot + 1,
      O_vol_sum := O_vol_sum,
      O_ct_max := if O_count > s.O_ct_max then O_count else s.O_ct_max,
      O_event := if O_count = 1 then s.O_event + 1 else s.O_event,
      O_vol_max := if O_vol_sum > s.O_vol_max then O_vol_sum else s.O_vol_max }
  else
    { s with O_count := 0, O_vol_sum := 0 }

/-- The record `daily[i]` after the call of line 250: `day` is `i + 1`, every other
field is written by `waterbalance`. -/
def dayRecord (pr : Params) (Cj : ℚ) (i : Nat) (V0 P_d : ℚ) : Daily :=
  waterbalance
    { day := i + 1, C := 0, V_in := 0, V_served := 0, V_stored := 0, O_loss := 0,
      D_met := 0, D_failed := 0 }
    V0 P_d pr.A_r pr.RC pr.FF pr.f_m pr.D Cj

/-- The body of the day loop (lines 246-332) for day index `i` and capacity `Cj`; the
file output of lines 252-262 is left out. -/
def loopBody (pr : Params) (Cj : ℚ) (i : Nat) (P_d : ℚ) (s : LoopState) : LoopState :=
  let d := dayRecord pr Cj i s.V0 P_d
  overflowAnalysis d (supplyAnalysis pr.D d (accumulate d s))

/-- The day loop `for (int i = 0; i < length; i++)` (line 245), from index `i` on. -/
def dayLoop (pr : Params) (Cj : ℚ) : Nat → List ℚ → LoopState → LoopState
  | _, [], s => s
  | i, P_d :: rest, s => dayLoop pr Cj (i + 1) rest (loopBody pr Cj i P_d s)

/-- The state at the end of the day loop for the capacity `Cj`, started from the initial
values (empty storage). -/
def simulate (pr : Params) (Cj : ℚ) (precipitation : List ℚ) : LoopState :=
  dayLoop pr Cj 0 precipitation LoopState.init

/-- The three summary records written for one capacity (lines 335-395). -/
structure Summary where
  reliability : Reliability
  supply : Supply
  overflow : Overflow
  deriving DecidableEq, Repr

/-- The finalisation of lines 335-395 from the final loop state. -/
def finalize (pr : Params) (tanksize : ℚ) (length drought_max : Nat) (s : LoopState) :
    Summary :=
  { reliability :=
      { days_tot := length,
        C := tanksize,
        temp_rel := fdiv s.D_met_sum length,
        vol_rel := fdiv s.V_served (pr.D * length),
        o_rel := if s.V_in_tot > 0 then fdiv s.O_tot s.V_in_tot else some 0,
        failure := fdiv s.D_failed_sum length,
        drought_max := drought_max },
    supply :=
      { days_tot := none,
        C := tanksize,
        failed_max := s.D_failed_max,
        failed_average :=
          if s.failed_event > 0 then fdiv s.D_failed_sum s.failed_event else some 0,
        unmet_max := s.D_unmet_max,
        unmet_average :=
          if s.unmet_event > 0 then fdiv s.D_unmet_sum s.unmet_event else some 0,
        met_max := s.D_met_max,
        met_average := if s.met_event > 0 then fdiv s.D_met_sum s.met_event else some 0 },
    overflow :=
      { days_tot := none,
        C := tanksize,
        ov_days_max := s.O_ct_max,
        ov_day_average := fdiv s.O_ct_tot s.O_event,
        ov_max := toInt s.O_vol_max,
        ov_average := fdiv s.O_tot s.O_event } }

/-- The summary of one capacity: one iteration of the loop over `j` (lines 206-399). -/
def summary (pr : Params) (Cj : ℚ) (precipitation : List ℚ) : Summary :=
  finalize pr Cj precipitation.length (droughtScan precipitation)
    (simulate pr Cj precipitation)

/-- The stored volume carried into day index `i` (the variable `V0` at the call of line
250): 0 on the first day, the previous record's `V_stored` afterwards. -/
def storedBefore (pr : Params) (Cj : ℚ) (precipitation : List ℚ) (i : Nat) : ℚ :=
  (simulate pr Cj (precipitation.take i)).V0

/-- The number `range` of swept capacities (line 168),
`(int)((end - start)/step) + 1`; `none` when `step` is 0, where the quotient is not
finite and its conversion to `int` is undefined. -/
def range (start end_ step : ℚ) : Option Int :=
  (fdiv (end_ - start) step).map (fun q => toInt q + 1)

/-- The capacity table `C[0..range-1]` of lines 170-182, `C[k] = start + k * step`. With
`range ≤ 0` no entry is written and no capacity is swept (the allocation fails and `main`
returns, or the loops over `k` and `j` run zero times): the table is empty. -/
def capacities (start end_ step : ℚ) : Option (List ℚ) :=
  (range start end_ step).map
    (fun r => (List.range r.toNat).map (fun (k : Nat) => start + (k : ℚ) * step))

/-- The loop over `j` (lines 206-399): one summary for every entry of the capacity
table, in the order of the table. -/
def sweep (pr : Params) (start end_ step : ℚ) (precipitation : List ℚ) :
    Option (List Summary) :=
  (capacities start end_ step).map (fun Cs => Cs.map (fun Cj => summary pr Cj precipitation))

/-- The sweep `main` is compiled with (lines 165-167): start 0.25, end 35, step 0.05,
under the constants `sydney`. -/
def mainSweep (precipitation : List ℚ) : Option (List Summary) :=
  sweep sydney (1 / 4) 35 (5 / 100) precipitation

/-- The flag of the last day of `l`, or `p` when `l` is empty. -/
def lastOr (p : Bool) : List Bool → Bool
  | [] => p
  | b :: rest => lastOr b rest

/-- The number of maximal runs of consecutive `true` flags in `l`, where `prev` is the
flag of the day before `l`: a run starts at every `true` flag whose predecessor is
`false`. -/
def runCountFrom (prev : Bool) : List Bool → Nat
  | [] => 0
  | b :: rest => (if b && !prev then 1 else 0) + runCountFrom b rest

/-- The number of maximal runs of consecutive `true` flags in a series of flags. -/
def runCount (flags : List Bool) : Nat := runCountFrom false flags

/-- Constants under which the net inflow of a day in m³ equals its rainfall in mm (a
roof of 1000 m², no runoff loss, no first flush, no filter loss), with the demand 0.04
of the scenario of the specification (§8). -/
def scenario : Params :=
  { A_r := 1000, RC := 1, FF := 0, f_m := 0, D := 4 / 100 }

/-- The integer part of the binary logarithm of `n`, computed by halving at most `fuel`
times (0 for `n < 2`). -/
def log2Fuel : Nat → Nat → Nat
  | 0, _ => 0
  | fuel + 1, n => if n ≥ 2 then log2Fuel fuel (n / 2) + 1 else 0

/-- The integer part of the binary logarithm of a positive `n`: `n` halvings are always
enough. -/
def ilog2 (n : Nat) : Nat := log2Fuel n n

/-- The integer part of the binary logarithm of `n / d`, for positive `n` and `d`. -/
def floorLog2 (n d : Nat) : Int :=
  if ilog2 n ≥ ilog2 d then
    if n ≥ d * 2 ^ (ilog2 n - ilog2 d) then ((ilog2 n - ilog2 d : Nat) : Int)
    else ((ilog2 n - ilog2 d : Nat) : Int) - 1
  else
    if n * 2 ^ (ilog2 d - ilog2 n) ≥ d then -((ilog2 d - ilog2 n : Nat) : Int)
    else -((ilog2 d - ilog2 n : Nat) : Int) - 1

/-- The rounding of IEEE-754 binary64: the nearest number with a 53-bit significand,
ties to the even significand. The exponent range is not bounded (no overflow, no
subnormal numbers): the volumes of the program are far from both. -/
def rnd64 (q : ℚ) : ℚ :=
  if q = 0 then 0
  else
    let n := q.num.natAbs
    let d := q.den
    let e : Int := floorLog2 n d - 52
    let N : Nat := if e ≥ 0 then n else n * 2 ^ (-e).toNat
    let M : Nat := if e ≥ 0 then d * 2 ^ e.toNat else d
    let f := N / M
    let rem := N % M
    let g : Nat :=
      if 2 * rem < M then f else if 2 * rem > M then f + 1 else if f % 2 = 0 then f else f + 1
    let mag : ℚ :=
      if e ≥ 0 then ((g * 2 ^ e.toNat : Nat) : ℚ) else (g : ℚ) / ((2 ^ (-e).toNat : Nat) : ℚ)
    if q < 0 then -mag else mag

/-- The function `waterbalance` (lines 78-135) with the rounding `r` after every
arithmetic operation on doubles, in the order of evaluation of the source
(`P_d/1000 * A_r * RC` is `((P_d/1000) * A_r) * RC`, `V_available - V_served - C` is
`(V_available - V_served) - C`). No expression of the function adds to a product, so
there is nothing a compiler could fuse into one rounding. -/
def waterbalanceR (r : ℚ → ℚ) (d : Daily) (V0 P_d A_r RC FF f_m D C : ℚ) : Daily :=
  let V_tot := r (r (r (P_d / 1000) * A_r) * RC)
  let V_FF := r (r (FF / 1000) * A_r)
  let V_in := if V_tot ≥ V_FF then r (r (1 - f_m) * r (V_tot - V_FF)) else 0
  let V_available := r (V0 + V_in)
  let V_served := min V_available D
  let D_met : Nat := if V_served = D then 1 else 0
  let D_failed : Nat := if V_served = D then 0 else if V_served = 0 then 1 else 0
  let O_loss := max 0 (r (r (V_available - V_served) - C))
  let V_stored := if O_loss > 0 then C else r (V_available - V_served)
  { d with
    C := C, V_in := V_in, V_served := V_served, D_met := D_met, D_failed := D_failed,
    O_loss := O_loss, V_stored := V_stored }

/-- The sums of lines 264-275 with the rounding `r` after every addition of doubles. -/
def accumulateR (r : ℚ → ℚ) (d : Daily) (s : LoopState) : LoopState :=
  { s with
    daily := s.daily ++ [d],
    V0 := d.V_stored,
    D_met_sum := s.D_met_sum + d.D_met,
    V_served := r (s.V_served + d.V_served),
    O_tot := r (s.O_tot + d.O_loss),
    V_in_tot := r (s.V_in_tot + d.V_in) }

/-- The overflow analysis of lines 315-332 with the rounding `r` after the addition to
`O_vol_sum`. -/
def overflowAnalysisR (r : ℚ → ℚ) (d : Daily) (s : LoopState) : LoopState :=
  if d.O_loss > 0 then
    let O_count := s.O_count + 1
    let O_vol_sum := r (s.O_vol_sum + d.O_loss)
    { s with
      O_count := O_count,
      O_ct_tot := s.O_ct_tot + 1,
      O_vol_sum := O_vol_sum,
      O_ct_max := if O_count > s.O_ct_max then O_count else s.O_ct_max,
      O_event := if O_count = 1 then s.O_event + 1 else s.O_event,
      O_vol_max := if O_vol_sum > s.O_vol_max then O_vol_sum else s.O_vol_max }
  else
    { s with O_count := 0, O_vol_sum := 0 }

/-- The record `daily[i]` after the call of line 250, with rounding. -/
def dayRecordR (r : ℚ → ℚ) (pr : Params) (Cj : ℚ) (i : Nat) (V0 P_d : ℚ) : Daily :=
  waterbalanceR r
    { day := i + 1, C := 0, V_in := 0, V_served := 0, V_stored := 0, O_loss := 0,
      D_met := 0, D_failed := 0 }
    V0 P_d pr.A_r pr.RC pr.FF pr.f_m pr.D Cj

/-- The body of the day loop (lines 246-332) with rounding; the supply analysis only
compares doubles and counts. -/
def loopBodyR (r : ℚ → ℚ) (pr : Params) (Cj : ℚ) (i : Nat) (P_d : ℚ) (s : LoopState) :
    LoopState :=
  let d := dayRecordR r pr Cj i s.V0 P_d
  overflowAnalysisR r d (supplyAnalysis pr.D d (accumulateR r d s))

/-- The day loop (line 245) with rounding, from index `i` on. -/
def dayLoopR (r : ℚ → ℚ) (pr : Params) (Cj : ℚ) : Nat → List ℚ → LoopState → LoopState
  | _, [], s => s
  | i, P_d :: rest, s => dayLoopR r pr Cj (i + 1) rest (loopBodyR r pr Cj i P_d s)

/-- The state at the end of the day loop with rounding, started from the initial values. -/
def simulateR (r : ℚ → ℚ) (pr : Params) (Cj : ℚ) (precipitation : List ℚ) : LoopState :=
  dayLoopR r pr Cj 0 precipitation LoopState.init

/-- A `double` division with rounding: `none` for a zero divisor. -/
def fdivR (r : ℚ → ℚ) (a b : ℚ) : Option ℚ := if b = 0 then none else some (r (a / b))

/-- The finalisation of lines 335-395 with the rounding `r` after every division and
after the product `D * length`; the conversion of a counter to `double` is exact. -/
def finalizeR (r : ℚ → ℚ) (pr : Params) (tanksize : ℚ) (length drought_max : Nat)
    (s : LoopState) : Summary :=
  { reliability :=
      { days_tot := length,
        C := tanksize,
        temp_rel := fdivR r s.D_met_sum length,
        vol_rel := fdivR r s.V_served (r (pr.D * length)),
        o_rel := if s.V_in_tot > 0 then fdivR r s.O_tot s.V_in_tot else some 0,
        failure := fdivR r s.D_failed_sum length,
        drought_max := drought_max },
    supply :=
      { days_tot := none,
        C := tanksize,
        failed_max := s.D_failed_max,
        failed_average :=
          if s.failed_event > 0 then fdivR r s.D_failed_sum s.failed_event else some 0,
        unmet_max := s.D_unmet_max,
        unmet_average :=
          if s.unmet_event > 0 then fdivR r s.D_unmet_sum s.unmet_event else some 0,
        met_max := s.D_met_max,
        met_average :=
          if s.met_event > 0 then fdivR r s.D_met_sum s.met_event else some 0 },
    overflow :=
      { days_tot := none,
        C := tanksize,
        ov_days_max := s.O_ct_max,
        ov_day_average := fdivR r s.O_ct_tot s.O_event,
        ov_max := toInt s.O_vol_max,
        ov_average := fdivR r s.O_tot s.O_event } }

/-- The summary of one capacity with rounding. -/
def summaryR (r : ℚ → ℚ) (pr : Params) (Cj : ℚ) (precipitation : List ℚ) : Summary :=
  finalizeR r pr Cj precipitation.length (droughtScan precipitation)
    (simulateR r pr Cj precipitation)

/-- The constants of `main` (lines 144-148) as the doubles the compiler stores for the
decimal literals. -/
def sydney64 : Params :=
  { A_r := 50, RC := rnd64 (85 / 100), FF := 75 / 100, f_m := rnd64 (1 / 10),
    D := rnd64 (395 / 10000) }

/-- The run-length tracker of the specification (§4.4) on a flag: the pair is (current
streak, longest streak); a day in the category extends the current streak and raises the
maximum, every other day resets the current streak to 0. -/
def streakStep (s : Nat × Nat) (b : Bool) : Nat × Nat :=
  if b then (s.1 + 1, if s.1 + 1 > s.2 then s.1 + 1 else s.2) else (0, s.2)

/-- The length of the longest run of consecutive `true` flags, by the tracker of the
specification. -/
def longestStreak (flags : List Bool) : Nat :=
  (flags.foldl streakStep (0, 0)).2

/-- A rainfall series for the constants of `main`: a dry day, a day whose rainfall
(293/153 mm, about 1.915) nets exactly one day of demand, and a dry day. Day 1 and day 3
are failure days, day 2 is fully met and leaves the tank empty. -/
def failureGapSeries : List ℚ := [0, 293 / 153, 0]

/-- What the tracker knows after the flags `l`: `c` is the length of the run of `true`
that ends the list, `m` the length of the longest run of `true` anywhere in it. -/
structure StreakInv (l : List Bool) (c m : Nat) : Prop where
  cur_suffix : List.replicate c true <:+ l
  cur_bound : ∀ k, List.replicate k true <:+ l → k ≤ c
  max_occurs : List.replicate m true <:+: l
  max_bound : ∀ k, List.replicate k true <:+: l → k ≤ m

/-- What the supply counters hold after any number of days: each day total counts the
days of its category among the records written so far, the current streak is at most the
day total, and the event counter is zero exactly when the day total is. -/
structure SupplyInv (pr : Params) (s : LoopState) : Prop where
  failed_sum : s.D_failed_sum = s.daily.countP (fun d => d.D_failed = 1)
  failed_cur : s.D_failed ≤ s.D_failed_sum
  failed_ev : s.failed_event = 0 ↔ s.D_failed_sum = 0
  unmet_sum : s.D_unmet_sum = s.daily.countP (fun d => d.V_served < pr.D)
  unmet_cur : s.D_unmet ≤ s.D_unmet_sum
  unmet_ev : s.unmet_event = 0 ↔ s.D_unmet_sum = 0
  met_sum : s.D_met_sum = s.daily.countP (fun d => ¬ d.V_served < pr.D)
  met_cur : s.D_met ≤ s.D_met_sum
  met_ev : s.met_event = 0 ↔ s.D_met_sum = 0

/-- What the overflow counters hold after any number of days: `O_ct_tot` counts the days
with `O_loss > 0` among the records written so far, the current streak is at most that
total, and the event counter is zero exactly when the total is. -/
structure OverflowInv (s : LoopState) : Prop where
  ov_sum : s.O_ct_tot = s.daily.countP (fun d => d.O_loss > 0)
  ov_cur : s.O_count ≤ s.O_ct_tot
  ov_ev : s.O_event = 0 ↔ s.O_ct_tot = 0

/-- What a run-length tracker of the program holds after the flags `flags`: the current
streak and the longest streak are those of the tracker of the specification, and the
event counter is the number of maximal runs. -/
structure RunInv (flags : List Bool) (cur mx ev : Nat) : Prop where
  pair : (cur, mx) = flags.foldl streakStep (0, 0)
  count : ev = runCount flags

/-- The unmet and the met tracker of the day loop are in step with the flags
`V_served < D` and `¬ V_served < D` of the records written so far. -/
structure SupplyRunInv (pr : Params) (s : LoopState) : Prop where
  unmet : RunInv (s.daily.map (fun d => decide (d.V_served < pr.D)))
    s.D_unmet s.D_unmet_max s.unmet_event
  met : RunInv (s.daily.map (fun d => decide (¬ d.V_served < pr.D)))
    s.D_met s.D_met_max s.met_event

/-- What the overflow volume tracker holds after the losses `l`: `cs` is the total of the
run of positive losses that ends the list, `m` the largest total of a block of
consecutive positive losses anywhere in it (the largest total of an overflow event). -/
structure VolumeInv (l : List ℚ) (cs m : ℚ) : Prop where
  cur_occurs : ∃ b, b <:+ l ∧ (∀ x ∈ b, 0 < x) ∧ b.sum = cs
  cur_bound : ∀ b, b <:+ l → (∀ x ∈ b, 0 < x) → b.sum ≤ cs
  max_occurs : ∃ b, b <:+: l ∧ (∀ x ∈ b, 0 < x) ∧ b.sum = m
  max_bound : ∀ b, b <:+: l → (∀ x ∈ b, 0 < x) → b.sum ≤ m

/-! ## The day loop: structural lemmas -/

theorem dayLoop_concat (pr : Params) (Cj : ℚ) (ps : List ℚ) (P : ℚ) :
    ∀ (i : Nat) (s : LoopState),
      dayLoop pr Cj i (ps ++ [P]) s = loopBody pr Cj (i + ps.length) P (dayLoop pr Cj i ps s) := by
  induction ps with
  | nil => intro i s; simp [dayLoop]
  | cons Q rest ih =>
    intro i s
    show dayLoop pr Cj (i + 1) (rest ++ [P]) (loopBody pr Cj i Q s) = _
    rw [ih]
    simp only [dayLoop, List.length_cons]
    congr 1
    omega

theorem simulate_nil (pr : Params) (Cj : ℚ) : simulate pr Cj [] = LoopState.init := rfl

theorem simulate_concat (pr : Params) (Cj : ℚ) (ps : List ℚ) (P : ℚ) :
    simulate pr Cj (ps ++ [P]) = loopBody pr Cj ps.length P (simulate pr Cj ps) := by
  unfold simulate
  rw [dayLoop_concat, Nat.zero_add]

/-- A property of the loop state that holds initially and is kept by every pass through
the loop body holds at the end of the day loop. -/
theorem simulate_induction (pr : Params) (Cj : ℚ) (Inv : LoopState → Prop)
    (h0 : Inv LoopState.init)
    (hstep : ∀ (i : Nat) (P : ℚ) (s : LoopState), Inv s → Inv (loopBody pr Cj i P s))
    (ps : List ℚ) : Inv (simulate pr Cj ps) := by
  induction ps using List.reverseRecOn with
  | nil => exact h0
  | append_singleton l a ih =>
    rw [simulate_concat]
    exact hstep _ _ _ ih

theorem failedAnalysis_daily (d : Daily) (s : LoopState) :
    (failedAnalysis d s).daily = s.daily := by
  unfold failedAnalysis; split <;> rfl

theorem failedAnalysis_V0 (d : Daily) (s : LoopState) :
    (failedAnalysis d s).V0 = s.V0 := by
  unfold failedAnalysis; split <;> rfl

theorem supplyAnalysis_daily (D : ℚ) (d : Daily) (s : LoopState) :
    (supplyAnalysis D d s).daily = s.daily := by
  unfold supplyAnalysis; split
  · exact failedAnalysis_daily d _
  · rfl

theorem supplyAnalysis_V0 (D : ℚ) (d : Daily) (s : LoopState) :
    (supplyAnalysis D d s).V0 = s.V0 := by
  unfold supplyAnalysis; split
  · exact failedAnalysis_V0 d _
  · rfl

theorem overflowAnalysis_daily (d : Daily) (s : LoopState) :
    (overflowAnalysis d s).daily = s.daily := by
  unfold overflowAnalysis; split <;> rfl

theorem overflowAnalysis_V0 (d : Daily) (s : LoopState) :
    (overflowAnalysis d s).V0 = s.V0 := by
  unfold overflowAnalysis; split <;> rfl

theorem loopBody_daily (pr : Params) (Cj : ℚ) (i : Nat) (P : ℚ) (s : LoopState) :
    (loopBody pr Cj i P s).daily = s.daily ++ [dayRecord pr Cj i s.V0 P] := by
  unfold loopBody
  rw [overflowAnalysis_daily, supplyAnalysis_daily]
  rfl

theorem loopBody_V0 (pr : Params) (Cj : ℚ) (i : Nat) (P : ℚ) (s : LoopState) :
    (loopBody pr Cj i P s).V0 = (dayRecord pr Cj i s.V0 P).V_stored := by
  unfold loopBody
  rw [overflowAnalysis_V0, supplyAnalysis_V0]
  rfl

/-- A property of the day records that every call of `waterbalance` from the loop
establishes holds for every record of the simulation. -/
theorem simulate_daily_forall (pr : Params) (Cj : ℚ) (Q : Daily → Prop)
    (hQ : ∀ (i : Nat) (V0 P : ℚ), Q (dayRecord pr Cj i V0 P)) (ps : List ℚ) :
    ∀ d ∈ (simulate pr Cj ps).daily, Q d := by
  apply simulate_induction pr Cj (fun s => ∀ d ∈ s.daily, Q d)
  · intro d hd
    simp [LoopState.init] at hd
  · intro i P s ih d hd
    rw [loopBody_daily, List.mem_append, List.mem_singleton] at hd
    rcases hd with hd | rfl
    · exact ih d hd
    · exact hQ _ _ _

/-! ## The daily balance step -/

theorem min_le_left (a b : ℚ) : min a b ≤ a := by
  unfold min; split_ifs <;> linarith

theorem min_le_right (a b : ℚ) : min a b ≤ b := by
  unfold min; split_ifs <;> linarith

theorem waterbalance_V_stored_le (d : Daily) (V0 P_d A_r RC FF f_m D C : ℚ) :
    (waterbalance d V0 P_d A_r RC FF f_m D C).V_stored ≤ C := by
  simp only [waterbalance, max]
  split_ifs <;> linarith

/-- C1. Every call of `waterbalance` serves at most the demand and at most the available
volume `V0 + V_in`, and leaves at most the capacity in the tank; hence every record of the
day loop, for every rainfall series and every capacity, has `V_stored ≤ C`. -/
theorem waterbalance_served_stored_bounds :
    (∀ (d : Daily) (V0 P_d A_r RC FF f_m D C : ℚ),
      (waterbalance d V0 P_d A_r RC FF f_m D C).V_served ≤ D ∧
      (waterbalance d V0 P_d A_r RC FF f_m D C).V_served ≤
        V0 + (waterbalance d V0 P_d A_r RC FF f_m D C).V_in ∧
      (waterbalance d V0 P_d A_r RC FF f_m D C).V_stored ≤ C) ∧
    (∀ (pr : Params) (Cj : ℚ) (precipitation : List ℚ),
      ∀ r ∈ (simulate pr Cj precipitation).daily, r.C = Cj ∧ r.V_stored ≤ Cj) := by
  refine ⟨fun d V0 P_d A_r RC FF f_m D C => ⟨?_, ?_, ?_⟩, fun pr Cj ps => ?_⟩
  · exact min_le_right _ _
  · exact min_le_left _ _
  · exact waterbalance_V_stored_le d V0 P_d A_r RC FF f_m D C
  · exact simulate_daily_forall pr Cj (fun r => r.C = Cj ∧ r.V_stored ≤ Cj)
      (fun i V0 P => ⟨rfl, waterbalance_V_stored_le _ _ _ _ _ _ _ _ _⟩) ps

/-- C2. In the record of every call of `waterbalance`, a positive overflow loss comes
with a stored volume equal to the capacity, and a zero overflow loss with a stored volume
equal to available minus served, where available is `V0 + V_in`. -/
theorem waterbalance_stored_cases (d : Daily) (V0 P_d A_r RC FF f_m D C : ℚ) :
    ((waterbalance d V0 P_d A_r RC FF f_m D C).O_loss > 0 →
      (waterbalance d V0 P_d A_r RC FF f_m D C).V_stored = C) ∧
    ((waterbalance d V0 P_d A_r RC FF f_m D C).O_loss = 0 →
      (waterbalance d V0 P_d A_r RC FF f_m D C).V_stored =
        V0 + (waterbalance d V0 P_d A_r RC FF f_m D C).V_in -
          (waterbalance d V0 P_d A_r RC FF f_m D C).V_served) := by
  constructor
  · intro h
    simp only [waterbalance] at h ⊢
    rw [if_pos h]
  · intro h
    simp only [waterbalance] at h ⊢
    rw [if_neg (by rw [h]; exact lt_irrefl 0)]

theorem waterbalance_V_in_nonneg (d : Daily) (V0 P_d A_r RC FF f_m D C : ℚ)
    (hfm : f_m ≤ 1) : 0 ≤ (waterbalance d V0 P_d A_r RC FF f_m D C).V_in := by
  simp only [waterbalance]
  split_ifs with h
  · exact mul_nonneg (by linarith) (by linarith)
  · exact le_refl 0

theorem waterbalance_V_served (d : Daily) (V0 P_d A_r RC FF f_m D C : ℚ) :
    (waterbalance d V0 P_d A_r RC FF f_m D C).V_served =
      min (V0 + (waterbalance d V0 P_d A_r RC FF f_m D C).V_in) D := rfl

theorem waterbalance_D_met (d : Daily) (V0 P_d A_r RC FF f_m D C : ℚ) :
    (waterbalance d V0 P_d A_r RC FF f_m D C).D_met =
      if (waterbalance d V0 P_d A_r RC FF f_m D C).V_served = D then 1 else 0 := rfl

theorem waterbalance_D_failed (d : Daily) (V0 P_d A_r RC FF f_m D C : ℚ) :
    (waterbalance d V0 P_d A_r RC FF f_m D C).D_failed =
      if (waterbalance d V0 P_d A_r RC FF f_m D C).V_served = D then 0
      else if (waterbalance d V0 P_d A_r RC FF f_m D C).V_served = 0 then 1 else 0 := rfl

theorem waterbalance_O_loss (d : Daily) (V0 P_d A_r RC FF f_m D C : ℚ) :
    (waterbalance d V0 P_d A_r RC FF f_m D C).O_loss =
      max 0 (V0 + (waterbalance d V0 P_d A_r RC FF f_m D C).V_in -
        (waterbalance d V0 P_d A_r RC FF f_m D C).V_served - C) := rfl

theorem waterbalance_V_stored (d : Daily) (V0 P_d A_r RC FF f_m D C : ℚ) :
    (waterbalance d V0 P_d A_r RC FF f_m D C).V_stored =
      if (waterbalance d V0 P_d A_r RC FF f_m D C).O_loss > 0 then C
      else V0 + (waterbalance d V0 P_d A_r RC FF f_m D C).V_in -
        (waterbalance d V0 P_d A_r RC FF f_m D C).V_served := rfl

/-- C3. For a call of `waterbalance` whose inputs meet the preconditions of the step
(stored volume, rainfall and physical parameters non-negative, capacity positive, filter
loss at most 1), the flags `D_met` and `D_failed` are never both 1, and they are both 0
only when `0 < V_served < D`. Of the preconditions the proof uses `0 ≤ V0` and
`f_m ≤ 1`. -/
theorem waterbalance_flags_exclusive (d : Daily) (V0 P_d A_r RC FF f_m D C : ℚ)
    (_hV0 : 0 ≤ V0) (_hP : 0 ≤ P_d) (_hC : 0 < C) (_hA : 0 ≤ A_r) (_hRC : 0 ≤ RC)
    (_hFF : 0 ≤ FF) (_hfm0 : 0 ≤ f_m) (_hfm1 : f_m ≤ 1) (_hD : 0 ≤ D) :
    ¬ ((waterbalance d V0 P_d A_r RC FF f_m D C).D_met = 1 ∧
        (waterbalance d V0 P_d A_r RC FF f_m D C).D_failed = 1) ∧
    ((waterbalance d V0 P_d A_r RC FF f_m D C).D_met = 0 ∧
        (waterbalance d V0 P_d A_r RC FF f_m D C).D_failed = 0 →
      0 < (waterbalance d V0 P_d A_r RC FF f_m D C).V_served ∧
        (waterbalance d V0 P_d A_r RC FF f_m D C).V_served < D) := by
  have hin := waterbalance_V_in_nonneg d V0 P_d A_r RC FF f_m D C _hfm1
  have hsv := waterbalance_V_served d V0 P_d A_r RC FF f_m D C
  rw [waterbalance_D_met, waterbalance_D_failed]
  generalize (waterbalance d V0 P_d A_r RC FF f_m D C).V_served = sv at hsv ⊢
  generalize (waterbalance d V0 P_d A_r RC FF f_m D C).V_in = vin at hin hsv
  constructor
  · rintro ⟨h1, h2⟩
    split_ifs at h1 h2
  · rintro ⟨h1, h2⟩
    have hne : sv ≠ D := by
      intro h; rw [if_pos h] at h1; exact absurd h1 (by decide)
    have hnz : sv ≠ 0 := by
      intro h; rw [if_neg hne, if_pos h] at h2; exact absurd h2 (by decide)
    have hle : sv ≤ D := hsv ▸ min_le_right _ _
    have hav : sv = V0 + vin := by
      rw [hsv] at hne ⊢
      unfold min at hne ⊢
      split_ifs at hne ⊢ with hlt
      · rfl
      · exact absurd rfl hne
    refine ⟨lt_of_le_of_ne ?_ (Ne.symm hnz), lt_of_le_of_ne hle hne⟩
    rw [hav]
    exact add_nonneg _hV0 hin

/-- Witness for C3: a day of partial service (empty tank, 1.5 mm of rain) under the
constants of `main` and capacity 1, where both flags are 0. -/
theorem waterbalance_flags_exclusive_witness :
    ¬ ((waterbalance (dayRecord sydney 1 0 0 0) 0 (3 / 2) 50 (85 / 100) (75 / 100) (1 / 10)
          (395 / 10000) 1).D_met = 1 ∧
        (waterbalance (dayRecord sydney 1 0 0 0) 0 (3 / 2) 50 (85 / 100) (75 / 100) (1 / 10)
          (395 / 10000) 1).D_failed = 1) ∧
    ((waterbalance (dayRecord sydney 1 0 0 0) 0 (3 / 2) 50 (85 / 100) (75 / 100) (1 / 10)
          (395 / 10000) 1).D_met = 0 ∧
        (waterbalance (dayRecord sydney 1 0 0 0) 0 (3 / 2) 50 (85 / 100) (75 / 100) (1 / 10)
          (395 / 10000) 1).D_failed = 0 →
      0 < (waterbalance (dayRecord sydney 1 0 0 0) 0 (3 / 2) 50 (85 / 100) (75 / 100)
          (1 / 10) (395 / 10000) 1).V_served ∧
        (waterbalance (dayRecord sydney 1 0 0 0) 0 (3 / 2) 50 (85 / 100) (75 / 100) (1 / 10)
          (395 / 10000) 1).V_served < 395 / 10000) :=
  waterbalance_flags_exclusive (dayRecord sydney 1 0 0 0) 0 (3 / 2) 50 (85 / 100) (75 / 100)
    (1 / 10) (395 / 10000) 1 (by norm_num) (by norm_num) (by norm_num) (by norm_num)
    (by norm_num) (by norm_num) (by norm_num) (by norm_num) (by norm_num)

/-! ## Run-length tracking -/

theorem streakInv_nil : StreakInv [] 0 0 := by
  refine ⟨List.nil_suffix, ?_, List.nil_infix, ?_⟩
  · intro k hk
    have := List.eq_nil_of_suffix_nil hk
    cases k with
    | zero => exact le_refl 0
    | succ k => simp [List.replicate_succ] at this
  · intro k hk
    have := List.eq_nil_of_infix_nil hk
    cases k with
    | zero => exact le_refl 0
    | succ k => simp [List.replicate_succ] at this

theorem replicate_suffix_concat_true (l : List Bool) (k : Nat)
    (h : List.replicate k true <:+ l ++ [true]) :
    k = 0 ∨ ∃ j, k = j + 1 ∧ List.replicate j true <:+ l := by
  cases k with
  | zero => exact Or.inl rfl
  | succ j =>
    right
    refine ⟨j, rfl, ?_⟩
    rcases List.suffix_concat_iff.mp h with h0 | ⟨t, ht, hsuf⟩
    · simp [List.replicate_succ] at h0
    · rw [List.replicate_succ'] at ht
      have : List.replicate j true = t := List.append_inj_left' ht rfl
      rw [this]
      exact hsuf

theorem replicate_suffix_concat_false (l : List Bool) (k : Nat)
    (h : List.replicate k true <:+ l ++ [false]) : k = 0 := by
  cases k with
  | zero => rfl
  | succ j =>
    exfalso
    rcases List.suffix_concat_iff.mp h with h0 | ⟨t, ht, -⟩
    · simp [List.replicate_succ] at h0
    · have hmem : false ∈ List.replicate (j + 1) true := by
        rw [ht]
        exact List.mem_append_right _ (List.mem_singleton.mpr rfl)
      simp at hmem

theorem streakInv_concat (l : List Bool) (c m : Nat) (b : Bool) (h : StreakInv l c m) :
    StreakInv (l ++ [b]) (streakStep (c, m) b).1 (streakStep (c, m) b).2 := by
  have hcm : c ≤ m := h.max_bound c h.cur_suffix.isInfix
  cases b with
  | true =>
    have hsuf : List.replicate (c + 1) true <:+ l ++ [true] := by
      obtain ⟨t, ht⟩ := h.cur_suffix
      refine ⟨t, ?_⟩
      rw [List.replicate_succ', ← List.append_assoc, ht]
    have hcur : ∀ k, List.replicate k true <:+ l ++ [true] → k ≤ c + 1 := by
      intro k hk
      rcases replicate_suffix_concat_true l k hk with rfl | ⟨j, rfl, hj⟩
      · exact Nat.zero_le _
      · exact Nat.succ_le_succ (h.cur_bound j hj)
    simp only [streakStep, if_true]
    refine ⟨hsuf, hcur, ?_, ?_⟩
    · split_ifs with hgt
      · exact hsuf.isInfix
      · exact h.max_occurs.trans (List.prefix_append l [true]).isInfix
    · intro k hk
      have hk' : k ≤ c + 1 ∨ k ≤ m := by
        rcases List.infix_concat_iff.mp hk with hs | hi
        · exact Or.inl (hcur k hs)
        · exact Or.inr (h.max_bound k hi)
      split_ifs with hgt <;> omega
  | false =>
    simp only [streakStep, Bool.false_eq_true, if_false]
    refine ⟨List.nil_suffix, ?_, ?_, ?_⟩
    · intro k hk
      exact le_of_eq (replicate_suffix_concat_false l k hk)
    · exact h.max_occurs.trans (List.prefix_append l [false]).isInfix
    · intro k hk
      rcases List.infix_concat_iff.mp hk with hs | hi
      · rw [replicate_suffix_concat_false l k hs]
        exact Nat.zero_le _
      · exact h.max_bound k hi

theorem streakInv_foldl (l : List Bool) :
    StreakInv l (l.foldl streakStep (0, 0)).1 (l.foldl streakStep (0, 0)).2 := by
  induction l using List.reverseRecOn with
  | nil => exact streakInv_nil
  | append_singleton l b ih =>
    rw [List.foldl_append]
    exact streakInv_concat l _ _ b ih

/-- The tracker of the specification computes the length of the longest run: a run of
`longestStreak l` consecutive `true` flags occurs in `l`, and no longer one does. -/
theorem longestStreak_spec (l : List Bool) :
    List.replicate (longestStreak l) true <:+: l ∧
      ∀ k, List.replicate k true <:+: l → k ≤ longestStreak l :=
  ⟨(streakInv_foldl l).max_occurs, (streakInv_foldl l).max_bound⟩

/-! ## The drought scan -/

theorem droughtStep_eq_streakStep (s : Nat × Nat) (P : ℚ) :
    droughtStep s P = streakStep s (decide (P = 0)) := by
  unfold droughtStep streakStep
  by_cases h : P = 0 <;> simp [h]

theorem droughtScan_eq_longestStreak (precipitation : List ℚ) :
    droughtScan precipitation = longestStreak (precipitation.map (fun P => decide (P = 0))) := by
  unfold droughtScan longestStreak
  rw [List.foldl_map]
  congr 2
  funext s P
  exact droughtStep_eq_streakStep s P

theorem replicate_true_infix_map_iff (ps : List ℚ) (k : Nat) :
    List.replicate k true <:+: ps.map (fun P => decide (P = 0)) ↔
      List.replicate k (0 : ℚ) <:+: ps := by
  constructor
  · rintro ⟨a, b, hab⟩
    obtain ⟨l₁, l₂, rfl, h₁, -⟩ := List.map_eq_append_iff.mp hab.symm
    obtain ⟨l₃, l₄, rfl, -, h₄⟩ := List.map_eq_append_iff.mp h₁
    have hl : l₄ = List.replicate k (0 : ℚ) := by
      rw [List.eq_replicate_iff]
      refine ⟨?_, ?_⟩
      · have := congrArg List.length h₄
        simpa using this
      · intro x hx
        have hx' : decide (x = 0) ∈ List.replicate k true := by
          rw [← h₄]
          exact List.mem_map_of_mem _ hx
        have := (List.mem_replicate.mp hx').2
        simpa using this
    exact ⟨l₃, l₂, by rw [hl]⟩
  · rintro ⟨a, b, hab⟩
    refine ⟨a.map (fun P => decide (P = 0)), b.map (fun P => decide (P = 0)), ?_⟩
    rw [← hab]
    simp

/-- C7. The drought scan returns the length of the longest contiguous run of days whose
rainfall is exactly 0: a block of `droughtScan p` consecutive zeros occurs in the series
and no longer block of zeros does (so the result is 0 when no day has zero rainfall); on
an all-zero series of length `N` it returns `N`, on an all-positive series 0. -/
theorem droughtScan_longest_zero_run :
    (∀ precipitation : List ℚ,
      List.replicate (droughtScan precipitation) (0 : ℚ) <:+: precipitation ∧
      ∀ k, List.replicate k (0 : ℚ) <:+: precipitation → k ≤ droughtScan precipitation) ∧
    (∀ precipitation : List ℚ, (∀ x ∈ precipitation, x ≠ 0) → droughtScan precipitation = 0) ∧
    (∀ N : Nat, droughtScan (List.replicate N 0) = N) ∧
    (∀ precipitation : List ℚ, (∀ x ∈ precipitation, 0 < x) → droughtScan precipitation = 0) := by
  have hmain : ∀ precipitation : List ℚ,
      List.replicate (droughtScan precipitation) (0 : ℚ) <:+: precipitation ∧
      ∀ k, List.replicate k (0 : ℚ) <:+: precipitation → k ≤ droughtScan precipitation := by
    intro ps
    have h := longestStreak_spec (ps.map (fun P => decide (P = 0)))
    rw [← droughtScan_eq_longestStreak] at h
    exact ⟨(replicate_true_infix_map_iff ps _).mp h.1,
      fun k hk => h.2 k ((replicate_true_infix_map_iff ps k).mpr hk)⟩
  have hnone : ∀ precipitation : List ℚ, (∀ x ∈ precipitation, x ≠ 0) →
      droughtScan precipitation = 0 := by
    intro ps hps
    by_contra hne
    have hpos : 0 < droughtScan ps := Nat.pos_of_ne_zero hne
    have hmem : (0 : ℚ) ∈ ps :=
      (hmain ps).1.subset (List.mem_replicate.mpr ⟨Nat.pos_iff_ne_zero.mp hpos, rfl⟩)
    exact hps 0 hmem rfl
  refine ⟨hmain, hnone, ?_, ?_⟩
  · intro N
    apply le_antisymm
    · have := (hmain (List.replicate N 0)).1.length_le
      simpa using this
    · exact (hmain (List.replicate N 0)).2 N (List.infix_refl _)
  · intro ps hps
    exact hnone ps (fun x hx => ne_of_gt (hps x hx))

/-! ## The failure streak and the overflow averages at concrete inputs -/

/-- C4. On `failureGapSeries` (constants of `main`, capacity 0.25) the two failure days,
day 1 and day 3, are separated by a fully-met day, so the longest run of failure days has
length 1; the program reports `failed_max = 2` and a single failure event, because the
streak counter `D_failed` is not reset on the fully-met day in between. -/
theorem failed_max_spans_met_days :
    (simulate sydney (1 / 4) failureGapSeries).daily.map
        (fun d => (d.V_served, d.V_stored, d.D_met, d.D_failed)) =
      [(0, 0, 0, 1), (395 / 10000, 0, 1, 0), (0, 0, 0, 1)] ∧
    longestStreak
      ((simulate sydney (1 / 4) failureGapSeries).daily.map
        (fun d => decide (d.D_failed = 1))) = 1 ∧
    (summary sydney (1 / 4) failureGapSeries).supply.failed_max = 2 ∧
    (simulate sydney (1 / 4) failureGapSeries).failed_event = 1 := by
  decide!

/-- C5. On a one-day series without rain (constants of `main`, capacity 0.25) no day
overflows and the event counter `O_event` is 0; the two overflow averages are computed
by dividing by that counter without a guard, so they are the non-finite `none` (NaN in
C), not 0; the met category, also without an event, has the guarded average 0. -/
theorem overflow_averages_unguarded :
    (simulate sydney (1 / 4) [0]).daily.map (fun d => d.O_loss) = [0] ∧
    (simulate sydney (1 / 4) [0]).O_event = 0 ∧
    (summary sydney (1 / 4) [0]).overflow.ov_day_average = none ∧
    (summary sydney (1 / 4) [0]).overflow.ov_average = none ∧
    (simulate sydney (1 / 4) [0]).met_event = 0 ∧
    (summary sydney (1 / 4) [0]).supply.met_average = some 0 := by
  decide!

/-! ## The water supply analysis: one pass of the loop body -/

/-- The overflow analysis leaves the supply counters and the totals alone. -/
theorem overflowAnalysis_frame (d : Daily) (s : LoopState) :
    (overflowAnalysis d s).D_failed = s.D_failed ∧
    (overflowAnalysis d s).D_failed_max = s.D_failed_max ∧
    (overflowAnalysis d s).D_failed_sum = s.D_failed_sum ∧
    (overflowAnalysis d s).failed_event = s.failed_event ∧
    (overflowAnalysis d s).D_unmet = s.D_unmet ∧
    (overflowAnalysis d s).D_unmet_sum = s.D_unmet_sum ∧
    (overflowAnalysis d s).D_unmet_max = s.D_unmet_max ∧
    (overflowAnalysis d s).unmet_event = s.unmet_event ∧
    (overflowAnalysis d s).D_met = s.D_met ∧
    (overflowAnalysis d s).D_met_sum = s.D_met_sum ∧
    (overflowAnalysis d s).D_met_max = s.D_met_max ∧
    (overflowAnalysis d s).met_event = s.met_event ∧
    (overflowAnalysis d s).V_in_tot = s.V_in_tot ∧
    (overflowAnalysis d s).V_served = s.V_served ∧
    (overflowAnalysis d s).O_tot = s.O_tot := by
  unfold overflowAnalysis
  split <;> exact ⟨rfl, rfl, rfl, rfl, rfl, rfl, rfl, rfl, rfl, rfl, rfl, rfl, rfl, rfl, rfl⟩

theorem loopBody_D_met_sum (pr : Params) (Cj : ℚ) (i : Nat) (P : ℚ) (s : LoopState) :
    (loopBody pr Cj i P s).D_met_sum = s.D_met_sum + (dayRecord pr Cj i s.V0 P).D_met := by
  unfold loopBody
  rw [(overflowAnalysis_frame _ _).2.2.2.2.2.2.2.2.2.1]
  unfold supplyAnalysis
  split
  · unfold failedAnalysis
    split <;> rfl
  · rfl

/-- The unmet and met counters after a day with `V_served < D` (lines 278-302). -/
theorem loopBody_unmet_day (pr : Params) (Cj : ℚ) (i : Nat) (P : ℚ) (s : LoopState)
    (h : (dayRecord pr Cj i s.V0 P).V_served < pr.D) :
    (loopBody pr Cj i P s).D_unmet = s.D_unmet + 1 ∧
    (loopBody pr Cj i P s).D_unmet_sum = s.D_unmet_sum + 1 ∧
    (loopBody pr Cj i P s).D_unmet_max =
      (if s.D_unmet + 1 > s.D_unmet_max then s.D_unmet + 1 else s.D_unmet_max) ∧
    (loopBody pr Cj i P s).unmet_event =
      (if s.D_unmet + 1 = 1 then s.unmet_event + 1 else s.unmet_event) ∧
    (loopBody pr Cj i P s).D_met = 0 ∧
    (loopBody pr Cj i P s).D_met_max = s.D_met_max ∧
    (loopBody pr Cj i P s).met_event = s.met_event := by
  have hf := overflowAnalysis_frame (dayRecord pr Cj i s.V0 P)
    (supplyAnalysis pr.D (dayRecord pr Cj i s.V0 P) (accumulate (dayRecord pr Cj i s.V0 P) s))
  unfold loopBody
  simp only [hf]
  unfold supplyAnalysis
  rw [if_pos h]
  unfold failedAnalysis
  split <;> exact ⟨rfl, rfl, rfl, rfl, rfl, rfl, rfl⟩

/-- The failure counters after a day with `V_served < D` whose `D_failed` flag is 1
(lines 283-291). -/
theorem loopBody_failed_day (pr : Params) (Cj : ℚ) (i : Nat) (P : ℚ) (s : LoopState)
    (h : (dayRecord pr Cj i s.V0 P).V_served < pr.D)
    (hf : (dayRecord pr Cj i s.V0 P).D_failed = 1) :
    (loopBody pr Cj i P s).D_failed = s.D_failed + 1 ∧
    (loopBody pr Cj i P s).D_failed_sum = s.D_failed_sum + 1 ∧
    (loopBody pr Cj i P s).D_failed_max =
      (if s.D_failed + 1 > s.D_failed_max then s.D_failed + 1 else s.D_failed_max) ∧
    (loopBody pr Cj i P s).failed_event =
      (if s.D_failed + 1 = 1 then s.failed_event + 1 else s.failed_event) := by
  have hfr := overflowAnalysis_frame (dayRecord pr Cj i s.V0 P)
    (supplyAnalysis pr.D (dayRecord pr Cj i s.V0 P) (accumulate (dayRecord pr Cj i s.V0 P) s))
  unfold loopBody
  simp only [hfr]
  simp only [supplyAnalysis, failedAnalysis, if_pos h, if_pos hf]
  exact ⟨rfl, rfl, rfl, rfl⟩

/-- The failure counters after a day with `V_served < D` whose `D_failed` flag is not 1
(lines 292-294): the streak counter is reset. -/
theorem loopBody_partial_day (pr : Params) (Cj : ℚ) (i : Nat) (P : ℚ) (s : LoopState)
    (h : (dayRecord pr Cj i s.V0 P).V_served < pr.D)
    (hf : ¬ (dayRecord pr Cj i s.V0 P).D_failed = 1) :
    (loopBody pr Cj i P s).D_failed = 0 ∧
    (loopBody pr Cj i P s).D_failed_sum = s.D_failed_sum ∧
    (loopBody pr Cj i P s).D_failed_max = s.D_failed_max ∧
    (loopBody pr Cj i P s).failed_event = s.failed_event := by
  have hfr := overflowAnalysis_frame (dayRecord pr Cj i s.V0 P)
    (supplyAnalysis pr.D (dayRecord pr Cj i s.V0 P) (accumulate (dayRecord pr Cj i s.V0 P) s))
  unfold loopBody
  simp only [hfr]
  simp only [supplyAnalysis, failedAnalysis, accumulate, if_pos h, if_neg hf, and_self]

/-- The supply counters after a day without `V_served < D` (lines 304-313): the unmet
streak is reset, the met streak grows, the failure counters are left as they are. -/
theorem loopBody_met_day (pr : Params) (Cj : ℚ) (i : Nat) (P : ℚ) (s : LoopState)
    (h : ¬ (dayRecord pr Cj i s.V0 P).V_served < pr.D) :
    (loopBody pr Cj i P s).D_unmet = 0 ∧
    (loopBody pr Cj i P s).D_unmet_sum = s.D_unmet_sum ∧
    (loopBody pr Cj i P s).D_unmet_max = s.D_unmet_max ∧
    (loopBody pr Cj i P s).unmet_event = s.unmet_event ∧
    (loopBody pr Cj i P s).D_met = s.D_met + 1 ∧
    (loopBody pr Cj i P s).D_met_max =
      (if s.D_met + 1 > s.D_met_max then s.D_met + 1 else s.D_met_max) ∧
    (loopBody pr Cj i P s).met_event =
      (if s.D_met + 1 = 1 then s.met_event + 1 else s.met_event) ∧
    (loopBody pr Cj i P s).D_failed = s.D_failed ∧
    (loopBody pr Cj i P s).D_failed_sum = s.D_failed_sum ∧
    (loopBody pr Cj i P s).D_failed_max = s.D_failed_max ∧
    (loopBody pr Cj i P s).failed_event = s.failed_event := by
  have hfr := overflowAnalysis_frame (dayRecord pr Cj i s.V0 P)
    (supplyAnalysis pr.D (dayRecord pr Cj i s.V0 P) (accumulate (dayRecord pr Cj i s.V0 P) s))
  unfold loopBody
  simp only [hfr]
  unfold supplyAnalysis
  rw [if_neg h]
  exact ⟨rfl, rfl, rfl, rfl, rfl, rfl, rfl, rfl, rfl, rfl, rfl⟩

/-! ## Facts about the record of one day -/

theorem dayRecord_V_served_le (pr : Params) (Cj : ℚ) (i : Nat) (V0 P : ℚ) :
    (dayRecord pr Cj i V0 P).V_served ≤ pr.D :=
  min_le_right _ _

theorem dayRecord_D_met (pr : Params) (Cj : ℚ) (i : Nat) (V0 P : ℚ) :
    (dayRecord pr Cj i V0 P).D_met =
      if ¬ (dayRecord pr Cj i V0 P).V_served < pr.D then 1 else 0 := by
  have hle := dayRecord_V_served_le pr Cj i V0 P
  unfold dayRecord at hle ⊢
  rw [waterbalance_D_met]
  by_cases h : (waterbalance
      { day := i + 1, C := 0, V_in := 0, V_served := 0, V_stored := 0, O_loss := 0,
        D_met := 0, D_failed := 0 }
      V0 P pr.A_r pr.RC pr.FF pr.f_m pr.D Cj).V_served = pr.D
  · rw [if_pos h, if_pos (by rw [h]; exact lt_irrefl _)]
  · rw [if_neg h, if_neg (not_not.mpr (lt_of_le_of_ne hle h))]

theorem dayRecord_failed_lt (pr : Params) (Cj : ℚ) (i : Nat) (V0 P : ℚ)
    (hf : (dayRecord pr Cj i V0 P).D_failed = 1) :
    (dayRecord pr Cj i V0 P).V_served < pr.D := by
  have hle := dayRecord_V_served_le pr Cj i V0 P
  unfold dayRecord at hle hf ⊢
  rw [waterbalance_D_failed] at hf
  by_cases h : (waterbalance
      { day := i + 1, C := 0, V_in := 0, V_served := 0, V_stored := 0, O_loss := 0,
        D_met := 0, D_failed := 0 }
      V0 P pr.A_r pr.RC pr.FF pr.f_m pr.D Cj).V_served = pr.D
  · rw [if_pos h] at hf
    exact absurd hf (by decide)
  · exact lt_of_le_of_ne hle h

/-! ## The supply counters over the whole series -/

theorem supplyInv_init (pr : Params) : SupplyInv pr LoopState.init := by
  constructor <;> simp [LoopState.init]

theorem supplyInv_step (pr : Params) (Cj : ℚ) (i : Nat) (P : ℚ) (s : LoopState)
    (hs : SupplyInv pr s) : SupplyInv pr (loopBody pr Cj i P s) := by
  have hd := loopBody_daily pr Cj i P s
  have hm := loopBody_D_met_sum pr Cj i P s
  have hdm := dayRecord_D_met pr Cj i s.V0 P
  obtain ⟨f1, f2, f3, u1, u2, u3, m1, m2, m3⟩ := hs
  by_cases h : (dayRecord pr Cj i s.V0 P).V_served < pr.D
  · obtain ⟨a1, a2, -, a4, a5, -, a7⟩ := loopBody_unmet_day pr Cj i P s h
    rw [if_neg (not_not.mpr h)] at hdm
    by_cases hf : (dayRecord pr Cj i s.V0 P).D_failed = 1
    · obtain ⟨b1, b2, -, b4⟩ := loopBody_failed_day pr Cj i P s h hf
      constructor <;>
        simp only [a1, a2, a4, a5, a7, b1, b2, b4, hm, hdm, hd, List.countP_append,
          List.countP_cons, List.countP_nil, h, hf, decide_True, decide_False,
          if_true, if_false, not_true_eq_false, Bool.false_eq_true] <;>
        (try split_ifs) <;>
        (try simp only [Nat.add_one_ne_zero, iff_self, false_iff, iff_false]) <;> (try omega)
    · obtain ⟨b1, b2, -, b4⟩ := loopBody_partial_day pr Cj i P s h hf
      constructor <;>
        simp only [a1, a2, a4, a5, a7, b1, b2, b4, hm, hdm, hd, List.countP_append,
          List.countP_cons, List.countP_nil, h, hf, decide_True, decide_False,
          if_true, if_false, not_true_eq_false, Bool.false_eq_true] <;>
        (try split_ifs) <;>
        (try simp only [Nat.add_one_ne_zero, iff_self, false_iff, iff_false]) <;> (try omega)
  · obtain ⟨a1, a2, -, a4, a5, -, a7, b1, b2, -, b4⟩ := loopBody_met_day pr Cj i P s h
    rw [if_pos h] at hdm
    have hf : ¬ (dayRecord pr Cj i s.V0 P).D_failed = 1 :=
      fun hf => h (dayRecord_failed_lt pr Cj i s.V0 P hf)
    constructor <;>
      simp only [a1, a2, a4, a5, a7, b1, b2, b4, hm, hdm, hd, List.countP_append,
        List.countP_cons, List.countP_nil, h, hf, decide_True, decide_False,
        if_true, if_false, not_false_eq_true, Bool.false_eq_true] <;>
      (try split_ifs) <;>
        (try simp only [Nat.add_one_ne_zero, iff_self, false_iff, iff_false]) <;> (try omega)

theorem supplyInv_simulate (pr : Params) (Cj : ℚ) (ps : List ℚ) :
    SupplyInv pr (simulate pr Cj ps) :=
  simulate_induction pr Cj (SupplyInv pr) (supplyInv_init pr)
    (fun i P s hs => supplyInv_step pr Cj i P s hs) ps

theorem simulate_daily_length (pr : Params) (Cj : ℚ) (ps : List ℚ) :
    (simulate pr Cj ps).daily.length = ps.length := by
  induction ps using List.reverseRecOn with
  | nil => rfl
  | append_singleton l a ih =>
    rw [simulate_concat, loopBody_daily, List.length_append, List.length_append, ih]
    rfl

theorem fdiv_of_ne_zero (a b : ℚ) (h : b ≠ 0) : fdiv a b = some (a / b) := by
  unfold fdiv
  rw [if_neg h]

theorem fdiv_zero (a : ℚ) : fdiv a 0 = none := by
  unfold fdiv
  rw [if_pos rfl]

/-- A guarded average of the supply finalisation (lines 354-376): 0 without an event,
the quotient otherwise. -/
theorem guarded_average (total event : Nat) :
    (event = 0 → (if event > 0 then fdiv total event else some 0) = some 0) ∧
    (event ≠ 0 →
      (if event > 0 then fdiv total event else some 0) = some ((total : ℚ) / (event : ℚ))) := by
  constructor
  · intro h
    rw [if_neg (by omega)]
  · intro h
    rw [if_pos (Nat.pos_of_ne_zero h), fdiv_of_ne_zero _ _ (Nat.cast_ne_zero.mpr h)]

/-- The guard of the supply finalisation (lines 354-376). For each of the failure, unmet
and met categories: the event counter is 0 exactly when no day of the series is in the
category, the average of the Supply summary is then exactly 0, and otherwise the average
is the number of days of the category divided by the event counter of the program
(`failed_event`, `unmet_event`, `met_event`). -/
theorem supply_averages_guarded (pr : Params) (Cj : ℚ) (precipitation : List ℚ) :
    (((simulate pr Cj precipitation).failed_event = 0 ↔
        ∀ d ∈ (simulate pr Cj precipitation).daily, ¬ d.D_failed = 1) ∧
      ((simulate pr Cj precipitation).failed_event = 0 →
        (summary pr Cj precipitation).supply.failed_average = some 0) ∧
      ((simulate pr Cj precipitation).failed_event ≠ 0 →
        (summary pr Cj precipitation).supply.failed_average =
          some ((((simulate pr Cj precipitation).daily.countP
              (fun d => d.D_failed = 1) : Nat) : ℚ) /
            ((simulate pr Cj precipitation).failed_event : ℚ)))) ∧
    (((simulate pr Cj precipitation).unmet_event = 0 ↔
        ∀ d ∈ (simulate pr Cj precipitation).daily, ¬ d.V_served < pr.D) ∧
      ((simulate pr Cj precipitation).unmet_event = 0 →
        (summary pr Cj precipitation).supply.unmet_average = some 0) ∧
      ((simulate pr Cj precipitation).unmet_event ≠ 0 →
        (summary pr Cj precipitation).supply.unmet_average =
          some ((((simulate pr Cj precipitation).daily.countP
              (fun d => d.V_served < pr.D) : Nat) : ℚ) /
            ((simulate pr Cj precipitation).unmet_event : ℚ)))) ∧
    (((simulate pr Cj precipitation).met_event = 0 ↔
        ∀ d ∈ (simulate pr Cj precipitation).daily, d.V_served < pr.D) ∧
      ((simulate pr Cj precipitation).met_event = 0 →
        (summary pr Cj precipitation).supply.met_average = some 0) ∧
      ((simulate pr Cj precipitation).met_event ≠ 0 →
        (summary pr Cj precipitation).supply.met_average =
          some ((((simulate pr Cj precipitation).daily.countP
              (fun d => ¬ d.V_served < pr.D) : Nat) : ℚ) /
            ((simulate pr Cj precipitation).met_event : ℚ)))) := by
  have inv := supplyInv_simulate pr Cj precipitation
  refine ⟨⟨?_, ?_, ?_⟩, ⟨?_, ?_, ?_⟩, ⟨?_, ?_, ?_⟩⟩
  · rw [inv.failed_ev, inv.failed_sum, List.countP_eq_zero]
    simp
  · exact (guarded_average _ _).1
  · rw [← inv.failed_sum]
    exact (guarded_average _ _).2
  · rw [inv.unmet_ev, inv.unmet_sum, List.countP_eq_zero]
    simp
  · exact (guarded_average _ _).1
  · rw [← inv.unmet_sum]
    exact (guarded_average _ _).2
  · rw [inv.met_ev, inv.met_sum, List.countP_eq_zero]
    simp
  · exact (guarded_average _ _).1
  · rw [← inv.met_sum]
    exact (guarded_average _ _).2

/-- C8. For a non-empty rainfall series the temporal reliability is the number of days
without `V_served < D` divided by the number of days `N`, and the total-failure fraction
is the number of days whose `D_failed` flag is 1 divided by `N`: the accumulators
`D_met_sum` and `D_failed_sum` count exactly those days, and `N` records are written. -/
theorem reliability_fractions_count_days (pr : Params) (Cj : ℚ) (precipitation : List ℚ)
    (hne : precipitation ≠ []) :
    (summary pr Cj precipitation).reliability.temp_rel =
      some ((((simulate pr Cj precipitation).daily.countP
          (fun d => ¬ d.V_served < pr.D) : Nat) : ℚ) / (precipitation.length : ℚ)) ∧
    (summary pr Cj precipitation).reliability.failure =
      some ((((simulate pr Cj precipitation).daily.countP
          (fun d => d.D_failed = 1) : Nat) : ℚ) / (precipitation.length : ℚ)) ∧
    (simulate pr Cj precipitation).D_met_sum =
      (simulate pr Cj precipitation).daily.countP (fun d => ¬ d.V_served < pr.D) ∧
    (simulate pr Cj precipitation).D_failed_sum =
      (simulate pr Cj precipitation).daily.countP (fun d => d.D_failed = 1) ∧
    (simulate pr Cj precipitation).daily.length = precipitation.length := by
  have inv := supplyInv_simulate pr Cj precipitation
  have hlen : (precipitation.length : ℚ) ≠ 0 :=
    Nat.cast_ne_zero.mpr (fun h => hne (List.length_eq_zero.mp h))
  refine ⟨?_, ?_, inv.met_sum, inv.failed_sum, simulate_daily_length pr Cj precipitation⟩
  · rw [← inv.met_sum]
    exact fdiv_of_ne_zero _ _ hlen
  · rw [← inv.failed_sum]
    exact fdiv_of_ne_zero _ _ hlen

/-- Witness for C8: two days under the constants of `main` and capacity 1. -/
theorem reliability_fractions_count_days_witness :
    (summary sydney 1 [0, 19]).reliability.temp_rel =
      some ((((simulate sydney 1 [0, 19]).daily.countP
          (fun d => ¬ d.V_served < sydney.D) : Nat) : ℚ) / (([0, 19] : List ℚ).length : ℚ)) ∧
    (summary sydney 1 [0, 19]).reliability.failure =
      some ((((simulate sydney 1 [0, 19]).daily.countP
          (fun d => d.D_failed = 1) : Nat) : ℚ) / (([0, 19] : List ℚ).length : ℚ)) ∧
    (simulate sydney 1 [0, 19]).D_met_sum =
      (simulate sydney 1 [0, 19]).daily.countP (fun d => ¬ d.V_served < sydney.D) ∧
    (simulate sydney 1 [0, 19]).D_failed_sum =
      (simulate sydney 1 [0, 19]).daily.countP (fun d => d.D_failed = 1) ∧
    (simulate sydney 1 [0, 19]).daily.length = ([0, 19] : List ℚ).length :=
  reliability_fractions_count_days sydney 1 [0, 19] (List.cons_ne_nil _ _)

/-! ## Carried storage and inflow totals -/

/-- The supply analysis leaves the totals alone. -/
theorem supplyAnalysis_totals (D : ℚ) (d : Daily) (s : LoopState) :
    (supplyAnalysis D d s).V_in_tot = s.V_in_tot ∧
    (supplyAnalysis D d s).V_served = s.V_served ∧
    (supplyAnalysis D d s).O_tot = s.O_tot := by
  unfold supplyAnalysis
  split
  · unfold failedAnalysis
    split <;> exact ⟨rfl, rfl, rfl⟩
  · exact ⟨rfl, rfl, rfl⟩

/-- The sums of lines 271-275 after one pass of the loop body. -/
theorem loopBody_totals (pr : Params) (Cj : ℚ) (i : Nat) (P : ℚ) (s : LoopState) :
    (loopBody pr Cj i P s).V_in_tot = s.V_in_tot + (dayRecord pr Cj i s.V0 P).V_in ∧
    (loopBody pr Cj i P s).V_served = s.V_served + (dayRecord pr Cj i s.V0 P).V_served ∧
    (loopBody pr Cj i P s).O_tot = s.O_tot + (dayRecord pr Cj i s.V0 P).O_loss := by
  have hf := overflowAnalysis_frame (dayRecord pr Cj i s.V0 P)
    (supplyAnalysis pr.D (dayRecord pr Cj i s.V0 P) (accumulate (dayRecord pr Cj i s.V0 P) s))
  have ht := supplyAnalysis_totals pr.D (dayRecord pr Cj i s.V0 P)
    (accumulate (dayRecord pr Cj i s.V0 P) s)
  unfold loopBody
  simp only [hf, ht]
  exact ⟨rfl, rfl, rfl⟩

/-- The net inflow of a day depends on the rainfall and the constants only, not on the
capacity, the day index or the stored volume. -/
theorem dayRecord_V_in_eq (pr : Params) (Cj Cj' : ℚ) (i i' : Nat) (V0 V0' P : ℚ) :
    (dayRecord pr Cj i V0 P).V_in = (dayRecord pr Cj' i' V0' P).V_in := rfl

theorem simulate_V_in_tot (pr : Params) (Cj : ℚ) (ps : List ℚ) :
    (simulate pr Cj ps).V_in_tot = (ps.map (fun P => (dayRecord pr 0 0 0 P).V_in)).sum := by
  induction ps using List.reverseRecOn with
  | nil => rfl
  | append_singleton l a ih =>
    rw [simulate_concat, (loopBody_totals pr Cj l.length a _).1, ih, List.map_append,
      List.sum_append, dayRecord_V_in_eq pr Cj 0 l.length 0 _ 0 a]
    simp

/-- A day whose available volume fits in the tank: no overflow, and the stored volume
lies between 0 and the available volume. -/
theorem waterbalance_no_overflow (d : Daily) (V0 P_d A_r RC FF f_m D C : ℚ)
    (hV0 : 0 ≤ V0) (hfm : f_m ≤ 1) (hD : 0 ≤ D)
    (hC : V0 + (waterbalance d V0 P_d A_r RC FF f_m D C).V_in ≤ C) :
    (waterbalance d V0 P_d A_r RC FF f_m D C).O_loss = 0 ∧
    0 ≤ (waterbalance d V0 P_d A_r RC FF f_m D C).V_stored ∧
    (waterbalance d V0 P_d A_r RC FF f_m D C).V_stored ≤
      V0 + (waterbalance d V0 P_d A_r RC FF f_m D C).V_in := by
  have hin := waterbalance_V_in_nonneg d V0 P_d A_r RC FF f_m D C hfm
  have hsv := waterbalance_V_served d V0 P_d A_r RC FF f_m D C
  have hol := waterbalance_O_loss d V0 P_d A_r RC FF f_m D C
  have hst := waterbalance_V_stored d V0 P_d A_r RC FF f_m D C
  generalize (waterbalance d V0 P_d A_r RC FF f_m D C).V_stored = st at hst ⊢
  generalize (waterbalance d V0 P_d A_r RC FF f_m D C).O_loss = ol at hol hst ⊢
  generalize (waterbalance d V0 P_d A_r RC FF f_m D C).V_served = sv at hsv hol hst
  generalize (waterbalance d V0 P_d A_r RC FF f_m D C).V_in = vin at hin hsv hol hst hC ⊢
  have hsv0 : 0 ≤ sv := by
    rw [hsv]; unfold min; split_ifs <;> linarith
  have hsva : sv ≤ V0 + vin := hsv ▸ min_le_left _ _
  have hol0 : ol = 0 := by
    rw [hol]; unfold max; split_ifs <;> linarith
  rw [hol0, if_neg (lt_irrefl 0)] at hst
  exact ⟨hol0, by linarith, by linarith⟩

theorem simulate_no_overflow (pr : Params) (Cj : ℚ) (hfm : pr.f_m ≤ 1) (hD : 0 ≤ pr.D)
    (ps : List ℚ) :
    (simulate pr Cj ps).V_in_tot ≤ Cj →
      0 ≤ (simulate pr Cj ps).V0 ∧ (simulate pr Cj ps).V0 ≤ (simulate pr Cj ps).V_in_tot ∧
        ∀ d ∈ (simulate pr Cj ps).daily, d.O_loss = 0 := by
  induction ps using List.reverseRecOn with
  | nil =>
    intro _
    refine ⟨le_refl _, le_refl _, ?_⟩
    intro d hd
    simp [simulate_nil, LoopState.init] at hd
  | append_singleton l a ih =>
    intro hC
    rw [simulate_concat] at hC ⊢
    rw [(loopBody_totals pr Cj l.length a _).1] at hC ⊢
    rw [loopBody_V0, loopBody_daily]
    have hin : 0 ≤ (dayRecord pr Cj l.length (simulate pr Cj l).V0 a).V_in :=
      waterbalance_V_in_nonneg _ _ _ _ _ _ _ _ _ hfm
    obtain ⟨h0, h1, h2⟩ := ih (by linarith)
    obtain ⟨k1, k2, k3⟩ := waterbalance_no_overflow
      { day := l.length + 1, C := 0, V_in := 0, V_served := 0, V_stored := 0, O_loss := 0,
        D_met := 0, D_failed := 0 }
      (simulate pr Cj l).V0 a pr.A_r pr.RC pr.FF pr.f_m pr.D Cj h0 hfm hD
      (by unfold dayRecord at hC hin; linarith)
    refine ⟨k2, ?_, ?_⟩
    · unfold dayRecord
      linarith
    · intro d hd
      rw [List.mem_append, List.mem_singleton] at hd
      rcases hd with hd | rfl
      · exact h2 d hd
      · exact k1

/-- C9. For a non-negative rainfall series and non-negative physical parameters with
filter loss at most 1 there is a capacity threshold, the total net inflow `V_in_tot` of
the series (the same for every capacity), such that for every capacity at or above it
the simulation started from empty storage has `O_loss = 0` on every day. -/
theorem no_overflow_above_total_inflow (pr : Params) (precipitation : List ℚ)
    (_hP : ∀ x ∈ precipitation, 0 ≤ x) (_hA : 0 ≤ pr.A_r) (_hRC : 0 ≤ pr.RC)
    (_hFF : 0 ≤ pr.FF) (_hfm0 : 0 ≤ pr.f_m) (hfm1 : pr.f_m ≤ 1) (hD : 0 ≤ pr.D) :
    ∃ T : ℚ, (∀ Cj : ℚ, (simulate pr Cj precipitation).V_in_tot = T) ∧
      ∀ Cj : ℚ, T ≤ Cj → ∀ d ∈ (simulate pr Cj precipitation).daily, d.O_loss = 0 := by
  refine ⟨(precipitation.map (fun P => (dayRecord pr 0 0 0 P).V_in)).sum,
    fun Cj => simulate_V_in_tot pr Cj precipitation, fun Cj hT => ?_⟩
  rw [← simulate_V_in_tot pr Cj precipitation] at hT
  exact (simulate_no_overflow pr Cj hfm1 hD precipitation hT).2.2

/-- Witness for C9: three days under the constants of `main`. -/
theorem no_overflow_above_total_inflow_witness :
    ∃ T : ℚ, (∀ Cj : ℚ, (simulate sydney Cj [0, 19, 1]).V_in_tot = T) ∧
      ∀ Cj : ℚ, T ≤ Cj → ∀ d ∈ (simulate sydney Cj [0, 19, 1]).daily, d.O_loss = 0 :=
  no_overflow_above_total_inflow sydney [0, 19, 1]
    (by
      intro x hx
      simp only [List.mem_cons, List.mem_singleton, List.not_mem_nil, or_false] at hx
      rcases hx with rfl | rfl | rfl <;> norm_num)
    (by unfold sydney; norm_num) (by unfold sydney; norm_num) (by unfold sydney; norm_num)
    (by unfold sydney; norm_num) (by unfold sydney; norm_num) (by unfold sydney; norm_num)

/-! ## The record of day `i` and the volume carried into it -/

theorem storedBefore_concat (pr : Params) (Cj : ℚ) (ps : List ℚ) (a : ℚ) (i : Nat)
    (h : i ≤ ps.length) : storedBefore pr Cj (ps ++ [a]) i = storedBefore pr Cj ps i := by
  unfold storedBefore
  rw [List.take_append_of_le_length h]

theorem storedBefore_length (pr : Params) (Cj : ℚ) (ps : List ℚ) (a : ℚ) :
    storedBefore pr Cj (ps ++ [a]) ps.length = (simulate pr Cj ps).V0 := by
  unfold storedBefore
  rw [List.take_left]

/-- The record at index `i` of the day loop is the result of the call of `waterbalance`
on the rainfall of day `i` and the volume stored after the first `i` days. -/
theorem simulate_daily_getElem? (pr : Params) (Cj : ℚ) (ps : List ℚ) :
    ∀ (i : Nat) (d : Daily), (simulate pr Cj ps).daily[i]? = some d →
      ∃ P, ps[i]? = some P ∧ d = dayRecord pr Cj i (storedBefore pr Cj ps i) P := by
  induction ps using List.reverseRecOn with
  | nil =>
    intro i d h
    simp [simulate_nil, LoopState.init] at h
  | append_singleton l a ih =>
    intro i d h
    rw [simulate_concat, loopBody_daily] at h
    have hlen := simulate_daily_length pr Cj l
    rcases Nat.lt_trichotomy i l.length with hlt | heq | hgt
    · rw [List.getElem?_append_left (by rw [hlen]; exact hlt)] at h
      obtain ⟨P, hP, hd⟩ := ih i d h
      refine ⟨P, ?_, ?_⟩
      · rw [List.getElem?_append_left hlt]
        exact hP
      · rw [storedBefore_concat pr Cj l a i (le_of_lt hlt)]
        exact hd
    · subst heq
      rw [List.getElem?_append_right (by rw [hlen]), hlen, Nat.sub_self] at h
      simp only [List.getElem?_cons_zero, Option.some.injEq] at h
      refine ⟨a, ?_, ?_⟩
      · rw [List.getElem?_append_right (le_refl _), Nat.sub_self]
        rfl
      · rw [storedBefore_length]
        exact h.symm
    · rw [List.getElem?_eq_none (by simp [hlen]; omega)] at h
      exact absurd h (by simp)

/-- With capacity 0 the tank is empty at the end of every day, whatever it held before,
and a day started empty overflows by `V_in - V_served` when it has water left over. -/
theorem waterbalance_zero_capacity (d : Daily) (V0 P_d A_r RC FF f_m D : ℚ) :
    (waterbalance d V0 P_d A_r RC FF f_m D 0).V_stored = 0 ∧
    (V0 + (waterbalance d V0 P_d A_r RC FF f_m D 0).V_in >
        (waterbalance d V0 P_d A_r RC FF f_m D 0).V_served →
      (waterbalance d V0 P_d A_r RC FF f_m D 0).O_loss =
        V0 + (waterbalance d V0 P_d A_r RC FF f_m D 0).V_in -
          (waterbalance d V0 P_d A_r RC FF f_m D 0).V_served) := by
  have hsv := waterbalance_V_served d V0 P_d A_r RC FF f_m D 0
  have hol := waterbalance_O_loss d V0 P_d A_r RC FF f_m D 0
  have hst := waterbalance_V_stored d V0 P_d A_r RC FF f_m D 0
  generalize (waterbalance d V0 P_d A_r RC FF f_m D 0).V_stored = st at hst ⊢
  generalize (waterbalance d V0 P_d A_r RC FF f_m D 0).O_loss = ol at hol hst ⊢
  generalize (waterbalance d V0 P_d A_r RC FF f_m D 0).V_served = sv at hsv hol hst ⊢
  generalize (waterbalance d V0 P_d A_r RC FF f_m D 0).V_in = vin at hsv hol hst ⊢
  have hsva : sv ≤ V0 + vin := hsv ▸ min_le_left _ _
  have hol' : ol = V0 + vin - sv := by
    rw [hol]; unfold max; split_ifs <;> linarith
  constructor
  · rw [hst]
    split_ifs with h
    · rfl
    · linarith
  · intro _
    exact hol'

theorem simulate_zero_capacity_V0 (pr : Params) (ps : List ℚ) :
    (simulate pr 0 ps).V0 = 0 := by
  apply simulate_induction pr 0 (fun s => s.V0 = 0)
  · rfl
  · intro i P s _
    rw [loopBody_V0]
    exact (waterbalance_zero_capacity _ _ _ _ _ _ _ _).1

/-- C10. In the simulation with capacity 0 started from empty storage, on every day
whose available volume (the volume carried into the day plus `V_in`) exceeds the
served volume, the overflow loss is `V_in - V_served`. -/
theorem zero_capacity_overflow (pr : Params) (precipitation : List ℚ) (i : Nat) (d : Daily)
    (hd : (simulate pr 0 precipitation).daily[i]? = some d)
    (hav : storedBefore pr 0 precipitation i + d.V_in > d.V_served) :
    d.O_loss = d.V_in - d.V_served := by
  obtain ⟨P, -, hrec⟩ := simulate_daily_getElem? pr 0 precipitation i d hd
  have hz : storedBefore pr 0 precipitation i = 0 := simulate_zero_capacity_V0 pr _
  rw [hz] at hrec hav
  subst hrec
  have h := (waterbalance_zero_capacity
    { day := i + 1, C := 0, V_in := 0, V_served := 0, V_stored := 0, O_loss := 0,
      D_met := 0, D_failed := 0 } 0 P pr.A_r pr.RC pr.FF pr.f_m pr.D).2
  unfold dayRecord at hav ⊢
  rw [zero_add] at h hav
  exact h hav

/-- Witness for C10: a rainy second day with the constants of `main` and capacity 0;
the net inflow is 0.693, the demand 0.0395 is served and 0.6535 overflows. -/
theorem zero_capacity_overflow_witness :
    (simulate sydney 0 [0, 19]).daily[1]? = some (dayRecord sydney 0 1 0 19) ∧
    storedBefore sydney 0 [0, 19] 1 + (dayRecord sydney 0 1 0 19).V_in >
      (dayRecord sydney 0 1 0 19).V_served ∧
    (dayRecord sydney 0 1 0 19).O_loss =
      (dayRecord sydney 0 1 0 19).V_in - (dayRecord sydney 0 1 0 19).V_served ∧
    (dayRecord sydney 0 1 0 19).O_loss = 6535 / 10000 :=
  ⟨by decide!, by decide!,
    zero_capacity_overflow sydney [0, 19] 1 (dayRecord sydney 0 1 0 19) (by decide!)
      (by decide!),
    by decide!⟩

/-! ## The overflow analysis: one pass of the loop body and the whole series -/

/-- The supply analysis and the sums leave the overflow counters alone. -/
theorem supplyAnalysis_overflow_frame (D : ℚ) (d : Daily) (s : LoopState) :
    (supplyAnalysis D d s).O_count = s.O_count ∧
    (supplyAnalysis D d s).O_ct_tot = s.O_ct_tot ∧
    (supplyAnalysis D d s).O_ct_max = s.O_ct_max ∧
    (supplyAnalysis D d s).O_vol_sum = s.O_vol_sum ∧
    (supplyAnalysis D d s).O_vol_max = s.O_vol_max ∧
    (supplyAnalysis D d s).O_event = s.O_event := by
  unfold supplyAnalysis
  split
  · unfold failedAnalysis
    split <;> exact ⟨rfl, rfl, rfl, rfl, rfl, rfl⟩
  · exact ⟨rfl, rfl, rfl, rfl, rfl, rfl⟩

/-- The overflow counters after a day with `O_loss > 0` (lines 316-328). -/
theorem loopBody_overflow_day (pr : Params) (Cj : ℚ) (i : Nat) (P : ℚ) (s : LoopState)
    (h : (dayRecord pr Cj i s.V0 P).O_loss > 0) :
    (loopBody pr Cj i P s).O_count = s.O_count + 1 ∧
    (loopBody pr Cj i P s).O_ct_tot = s.O_ct_tot + 1 ∧
    (loopBody pr Cj i P s).O_ct_max =
      (if s.O_count + 1 > s.O_ct_max then s.O_count + 1 else s.O_ct_max) ∧
    (loopBody pr Cj i P s).O_event =
      (if s.O_count + 1 = 1 then s.O_event + 1 else s.O_event) ∧
    (loopBody pr Cj i P s).O_vol_sum = s.O_vol_sum + (dayRecord pr Cj i s.V0 P).O_loss ∧
    (loopBody pr Cj i P s).O_vol_max =
      (if s.O_vol_sum + (dayRecord pr Cj i s.V0 P).O_loss > s.O_vol_max then
        s.O_vol_sum + (dayRecord pr Cj i s.V0 P).O_loss else s.O_vol_max) := by
  have hf := supplyAnalysis_overflow_frame pr.D (dayRecord pr Cj i s.V0 P)
    (accumulate (dayRecord pr Cj i s.V0 P) s)
  unfold loopBody
  simp only [overflowAnalysis, if_pos h, hf]
  exact ⟨rfl, rfl, rfl, rfl, rfl, rfl⟩

/-- The overflow counters after a day without `O_loss > 0` (lines 329-332): the day
streak and the running event volume are reset. -/
theorem loopBody_dry_day (pr : Params) (Cj : ℚ) (i : Nat) (P : ℚ) (s : LoopState)
    (h : ¬ (dayRecord pr Cj i s.V0 P).O_loss > 0) :
    (loopBody pr Cj i P s).O_count = 0 ∧
    (loopBody pr Cj i P s).O_ct_tot = s.O_ct_tot ∧
    (loopBody pr Cj i P s).O_ct_max = s.O_ct_max ∧
    (loopBody pr Cj i P s).O_event = s.O_event ∧
    (loopBody pr Cj i P s).O_vol_sum = 0 ∧
    (loopBody pr Cj i P s).O_vol_max = s.O_vol_max := by
  have hf := supplyAnalysis_overflow_frame pr.D (dayRecord pr Cj i s.V0 P)
    (accumulate (dayRecord pr Cj i s.V0 P) s)
  unfold loopBody
  simp only [overflowAnalysis, if_neg h, hf]
  exact ⟨trivial, rfl, rfl, rfl, trivial, rfl⟩

theorem overflowInv_init : OverflowInv LoopState.init := by
  constructor <;> simp [LoopState.init]

theorem overflowInv_step (pr : Params) (Cj : ℚ) (i : Nat) (P : ℚ) (s : LoopState)
    (hs : OverflowInv s) : OverflowInv (loopBody pr Cj i P s) := by
  have hd := loopBody_daily pr Cj i P s
  obtain ⟨o1, o2, o3⟩ := hs
  by_cases h : (dayRecord pr Cj i s.V0 P).O_loss > 0
  · obtain ⟨a1, a2, -, a4, -, -⟩ := loopBody_overflow_day pr Cj i P s h
    constructor <;>
      simp only [a1, a2, a4, hd, List.countP_append, List.countP_cons, List.countP_nil, h,
        decide_True, if_true] <;>
      (try split_ifs) <;>
      (try simp only [Nat.add_one_ne_zero, iff_self, false_iff, iff_false]) <;> (try omega)
  · obtain ⟨a1, a2, -, a4, -, -⟩ := loopBody_dry_day pr Cj i P s h
    constructor <;>
      simp only [a1, a2, a4, hd, List.countP_append, List.countP_cons, List.countP_nil, h,
        decide_False, Bool.false_eq_true, if_false] <;>
      (try omega)

theorem overflowInv_simulate (pr : Params) (Cj : ℚ) (ps : List ℚ) :
    OverflowInv (simulate pr Cj ps) :=
  simulate_induction pr Cj OverflowInv overflowInv_init
    (fun i P s hs => overflowInv_step pr Cj i P s hs) ps

/-- On every series and capacity without an overflow day the event counter `O_event`
is 0 and both overflow averages of the summary are the non-finite result of a division
by zero. -/
theorem overflow_averages_of_no_overflow (pr : Params) (Cj : ℚ) (ps : List ℚ)
    (h : ∀ d ∈ (simulate pr Cj ps).daily, ¬ d.O_loss > 0) :
    (simulate pr Cj ps).O_event = 0 ∧
    (summary pr Cj ps).overflow.ov_day_average = none ∧
    (summary pr Cj ps).overflow.ov_average = none := by
  have inv := overflowInv_simulate pr Cj ps
  have hev : (simulate pr Cj ps).O_event = 0 := by
    rw [inv.ov_ev, inv.ov_sum, List.countP_eq_zero]
    simpa using h
  refine ⟨hev, ?_, ?_⟩
  · show fdiv _ ((simulate pr Cj ps).O_event : ℚ) = none
    rw [hev, Nat.cast_zero, fdiv_zero]
  · show fdiv _ ((simulate pr Cj ps).O_event : ℚ) = none
    rw [hev, Nat.cast_zero, fdiv_zero]

/-! ## The dry day with an empty tank, and the two flags -/

/-- C11 (as stated, refuted). A call with `V0 = 0` and `P_d = 0` need not give the
record of the claim: with demand 0 the day counts as fully met (`D_failed = 0`), with a
negative capacity the stored volume is the capacity, and with a negative first-flush
depth the net inflow is positive. -/
theorem dry_empty_day_outside_valid_constants :
    ¬ ((dayRecord { sydney with D := 0 } 1 0 0 0).V_in = 0 ∧
        (dayRecord { sydney with D := 0 } 1 0 0 0).V_served = 0 ∧
        (dayRecord { sydney with D := 0 } 1 0 0 0).V_stored = 0 ∧
        (dayRecord { sydney with D := 0 } 1 0 0 0).D_failed = 1) ∧
    (dayRecord { sydney with D := 0 } 1 0 0 0).D_met = 1 ∧
    (dayRecord { sydney with D := 0 } 1 0 0 0).D_failed = 0 ∧
    (dayRecord sydney (-1) 0 0 0).V_stored = -1 ∧
    (dayRecord { sydney with FF := -(3 / 4) } 1 0 0 0).V_in = 27 / 800 := by
  decide!

theorem waterbalance_dry_V_in (d : Daily) (V0 A_r RC FF f_m D C : ℚ)
    (hFF : 0 ≤ FF) (hA : 0 ≤ A_r) :
    (waterbalance d V0 0 A_r RC FF f_m D C).V_in = 0 := by
  have hff : 0 ≤ FF / 1000 * A_r := mul_nonneg (div_nonneg hFF (by norm_num)) hA
  simp only [waterbalance]
  split_ifs with h
  · have h0 : FF / 1000 * A_r = 0 := le_antisymm (by simpa using h) hff
    rw [h0]
    ring
  · rfl

/-- C11 (amended). For every call of `waterbalance` with `V0 = 0` and `P_d = 0`, a
positive demand, a non-negative capacity and non-negative first-flush depth and roof
area, the record has `V_in = 0`, `V_served = 0`, `V_stored = 0`, `D_met = 0` and
`D_failed = 1`. -/
theorem waterbalance_dry_empty_day (d : Daily) (A_r RC FF f_m D C : ℚ)
    (hD : 0 < D) (hC : 0 ≤ C) (hFF : 0 ≤ FF) (hA : 0 ≤ A_r) :
    (waterbalance d 0 0 A_r RC FF f_m D C).V_in = 0 ∧
    (waterbalance d 0 0 A_r RC FF f_m D C).V_served = 0 ∧
    (waterbalance d 0 0 A_r RC FF f_m D C).V_stored = 0 ∧
    (waterbalance d 0 0 A_r RC FF f_m D C).D_met = 0 ∧
    (waterbalance d 0 0 A_r RC FF f_m D C).D_failed = 1 := by
  have hin := waterbalance_dry_V_in d 0 A_r RC FF f_m D C hFF hA
  have hsv : (waterbalance d 0 0 A_r RC FF f_m D C).V_served = 0 := by
    rw [waterbalance_V_served, hin, add_zero]
    unfold min
    rw [if_pos hD]
  have hol : (waterbalance d 0 0 A_r RC FF f_m D C).O_loss = 0 := by
    rw [waterbalance_O_loss, hin, hsv]
    unfold max
    split_ifs <;> linarith
  have hne : (0 : ℚ) ≠ D := ne_of_lt hD
  refine ⟨hin, hsv, ?_, ?_, ?_⟩
  · rw [waterbalance_V_stored, hol, if_neg (lt_irrefl 0), hin, hsv]
    norm_num
  · rw [waterbalance_D_met, hsv, if_neg hne]
  · rw [waterbalance_D_failed, hsv, if_neg hne, if_pos rfl]

/-- Witness for C11: the dry first day under the constants of `main`, capacity 0.25. -/
theorem waterbalance_dry_empty_day_witness :
    (dayRecord sydney (1 / 4) 0 0 0).V_in = 0 ∧
    (dayRecord sydney (1 / 4) 0 0 0).V_served = 0 ∧
    (dayRecord sydney (1 / 4) 0 0 0).V_stored = 0 ∧
    (dayRecord sydney (1 / 4) 0 0 0).D_met = 0 ∧
    (dayRecord sydney (1 / 4) 0 0 0).D_failed = 1 :=
  waterbalance_dry_empty_day _ 50 (85 / 100) (75 / 100) (1 / 10) (395 / 10000) (1 / 4)
    (by norm_num) (by norm_num) (by norm_num) (by norm_num)

/-- C16 (as stated, refuted). With demand 0, half a cubic metre in the tank, no rain and
capacity 1 (so `V0 ≥ 0`, `P_d ≥ 0`, `C > 0`) the served volume is 0 and equal to the
demand: the day is flagged fully met, and `D_failed` is 0 although `V_served == 0`. -/
theorem failed_flag_zero_demand :
    (dayRecord { sydney with D := 0 } 1 0 (1 / 2) 0).V_served = 0 ∧
    (dayRecord { sydney with D := 0 } 1 0 (1 / 2) 0).D_met = 1 ∧
    (dayRecord { sydney with D := 0 } 1 0 (1 / 2) 0).D_failed = 0 ∧
    ¬ ((dayRecord { sydney with D := 0 } 1 0 (1 / 2) 0).D_failed = 1 ↔
        (dayRecord { sydney with D := 0 } 1 0 (1 / 2) 0).V_served = 0) := by
  decide!

/-- C16 (amended). For every call of `waterbalance` with `V0 ≥ 0`, `P_d ≥ 0`, `C > 0`
and a demand other than 0, the `D_met` flag is 1 exactly when `V_served = D` and the
`D_failed` flag is 1 exactly when `V_served = 0`. -/
theorem waterbalance_flags_iff (d : Daily) (V0 P_d A_r RC FF f_m D C : ℚ)
    (_hV0 : 0 ≤ V0) (_hP : 0 ≤ P_d) (_hC : 0 < C) (hD : D ≠ 0) :
    ((waterbalance d V0 P_d A_r RC FF f_m D C).D_met = 1 ↔
      (waterbalance d V0 P_d A_r RC FF f_m D C).V_served = D) ∧
    ((waterbalance d V0 P_d A_r RC FF f_m D C).D_failed = 1 ↔
      (waterbalance d V0 P_d A_r RC FF f_m D C).V_served = 0) := by
  rw [waterbalance_D_met, waterbalance_D_failed]
  generalize (waterbalance d V0 P_d A_r RC FF f_m D C).V_served = sv
  constructor
  · by_cases h : sv = D
    · simp [h]
    · simp [h]
  · by_cases h : sv = D
    · have h0 : sv ≠ 0 := fun h0 => hD (h ▸ h0)
      simp [h, h0, hD]
    · by_cases h0 : sv = 0
      · simp [h, h0, Ne.symm hD]
      · simp [h, h0]

/-- Witness for C16: a day of partial service under the constants of `main`. -/
theorem waterbalance_flags_iff_witness :
    ((dayRecord sydney 1 0 0 (3 / 2)).D_met = 1 ↔
      (dayRecord sydney 1 0 0 (3 / 2)).V_served = 395 / 10000) ∧
    ((dayRecord sydney 1 0 0 (3 / 2)).D_failed = 1 ↔
      (dayRecord sydney 1 0 0 (3 / 2)).V_served = 0) :=
  waterbalance_flags_iff _ 0 (3 / 2) 50 (85 / 100) (75 / 100) (1 / 10) (395 / 10000) 1
    (by norm_num) (by norm_num) (by norm_num) (by norm_num)

/-! ## A day whose demand is met without overflow -/

theorem waterbalance_met_within_capacity (d : Daily) (V0 P_d A_r RC FF f_m D C : ℚ)
    (hlo : D ≤ V0 + (waterbalance d V0 P_d A_r RC FF f_m D C).V_in)
    (hhi : V0 + (waterbalance d V0 P_d A_r RC FF f_m D C).V_in ≤ D + C) :
    (waterbalance d V0 P_d A_r RC FF f_m D C).V_served = D ∧
    (waterbalance d V0 P_d A_r RC FF f_m D C).D_met = 1 ∧
    (waterbalance d V0 P_d A_r RC FF f_m D C).D_failed = 0 ∧
    (waterbalance d V0 P_d A_r RC FF f_m D C).O_loss = 0 ∧
    (waterbalance d V0 P_d A_r RC FF f_m D C).V_stored =
      V0 + (waterbalance d V0 P_d A_r RC FF f_m D C).V_in - D := by
  have hsv : (waterbalance d V0 P_d A_r RC FF f_m D C).V_served = D := by
    rw [waterbalance_V_served]
    unfold min
    rw [if_neg (not_lt.mpr hlo)]
  have hol : (waterbalance d V0 P_d A_r RC FF f_m D C).O_loss = 0 := by
    rw [waterbalance_O_loss, hsv]
    unfold max
    split_ifs <;> linarith
  refine ⟨hsv, ?_, ?_, hol, ?_⟩
  · rw [waterbalance_D_met, if_pos hsv]
  · rw [waterbalance_D_failed, if_pos hsv]
  · rw [waterbalance_V_stored, hol, if_neg (lt_irrefl 0), hsv]

/-- C12. In every call of `waterbalance` whose available volume `V0 + V_in` lies between
`D` and `D + C`, the demand is served in full (`V_served = D`, `D_met = 1`,
`D_failed = 0`), nothing overflows and `V_stored = available - D`. Two such days in a
row are the scenario of the specification: demand 0.04, capacity 1, empty tank, net
inflow 0.5 on day 1 (served 0.04, met, stored 0.46, no overflow) and 0 on day 2
(available 0.46, served 0.04, met, stored 0.42). -/
theorem demand_met_within_capacity :
    (∀ (d : Daily) (V0 P_d A_r RC FF f_m D C : ℚ),
      D ≤ V0 + (waterbalance d V0 P_d A_r RC FF f_m D C).V_in →
      V0 + (waterbalance d V0 P_d A_r RC FF f_m D C).V_in ≤ D + C →
        (waterbalance d V0 P_d A_r RC FF f_m D C).V_served = D ∧
        (waterbalance d V0 P_d A_r RC FF f_m D C).D_met = 1 ∧
        (waterbalance d V0 P_d A_r RC FF f_m D C).D_failed = 0 ∧
        (waterbalance d V0 P_d A_r RC FF f_m D C).O_loss = 0 ∧
        (waterbalance d V0 P_d A_r RC FF f_m D C).V_stored =
          V0 + (waterbalance d V0 P_d A_r RC FF f_m D C).V_in - D) ∧
    (simulate scenario 1 [1 / 2, 0]).daily.map
        (fun d => (d.day, d.V_in, d.V_served, d.V_stored)) =
      [(1, 1 / 2, 4 / 100, 46 / 100), (2, 0, 4 / 100, 42 / 100)] ∧
    (simulate scenario 1 [1 / 2, 0]).daily.map (fun d => (d.D_met, d.D_failed, d.O_loss)) =
      [(1, 0, 0), (1, 0, 0)] ∧
    storedBefore scenario 1 [1 / 2, 0] 0 = 0 ∧
    storedBefore scenario 1 [1 / 2, 0] 1 = 46 / 100 := by
  refine ⟨fun d V0 P_d A_r RC FF f_m D C hlo hhi =>
    waterbalance_met_within_capacity d V0 P_d A_r RC FF f_m D C hlo hhi, ?_, ?_, ?_, ?_⟩
  · decide!
  · decide!
  · decide!
  · decide!

/-- Witness for C12: day 2 of the scenario, as a call with 0.46 in the tank and no rain. -/
theorem demand_met_within_capacity_witness :
    (waterbalance (dayRecord scenario 1 1 0 0) (46 / 100) 0 1000 1 0 0 (4 / 100) 1).V_served =
      4 / 100 ∧
    (waterbalance (dayRecord scenario 1 1 0 0) (46 / 100) 0 1000 1 0 0 (4 / 100) 1).D_met = 1 ∧
    (waterbalance (dayRecord scenario 1 1 0 0) (46 / 100) 0 1000 1 0 0 (4 / 100) 1).D_failed =
      0 ∧
    (waterbalance (dayRecord scenario 1 1 0 0) (46 / 100) 0 1000 1 0 0 (4 / 100) 1).O_loss = 0 ∧
    (waterbalance (dayRecord scenario 1 1 0 0) (46 / 100) 0 1000 1 0 0 (4 / 100) 1).V_stored =
      46 / 100 +
        (waterbalance (dayRecord scenario 1 1 0 0) (46 / 100) 0 1000 1 0 0 (4 / 100) 1).V_in -
        4 / 100 :=
  demand_met_within_capacity.1 (dayRecord scenario 1 1 0 0) (46 / 100) 0 1000 1 0 0 (4 / 100) 1
    (by decide!) (by decide!)

/-! ## Mass balance -/

theorem lastOr_concat (l : List Bool) (b : Bool) : ∀ p : Bool, lastOr p (l ++ [b]) = b := by
  induction l with
  | nil => intro p; rfl
  | cons a l ih => intro p; exact ih a

theorem runCountFrom_concat (l : List Bool) (b : Bool) :
    ∀ p : Bool, runCountFrom p (l ++ [b]) =
      runCountFrom p l + (if b && !(lastOr p l) then 1 else 0) := by
  induction l with
  | nil => intro p; simp [runCountFrom, lastOr]
  | cons a l ih =>
    intro p
    show (if a && !p then 1 else 0) + runCountFrom a (l ++ [b]) = _
    rw [ih a]
    simp only [runCountFrom, lastOr]
    omega

theorem streak_cur_eq_zero_iff (l : List Bool) :
    (l.foldl streakStep (0, 0)).1 = 0 ↔ lastOr false l = false := by
  induction l using List.reverseRecOn with
  | nil => simp [lastOr]
  | append_singleton l b _ =>
    rw [List.foldl_append, lastOr_concat]
    cases b <;> simp [streakStep]

theorem runInv_nil : RunInv [] 0 0 0 := ⟨rfl, rfl⟩

/-- A day in the category: the streak grows, the maximum follows, and the event counter
is raised when the streak starts. -/
theorem runInv_concat_true (l : List Bool) (c m e : Nat) (h : RunInv l c m e) :
    RunInv (l ++ [true]) (c + 1) (if c + 1 > m then c + 1 else m)
      (if c + 1 = 1 then e + 1 else e) := by
  obtain ⟨hp, hc⟩ := h
  have hc1 : c = (l.foldl streakStep (0, 0)).1 := congrArg Prod.fst hp
  have hm1 : m = (l.foldl streakStep (0, 0)).2 := congrArg Prod.snd hp
  constructor
  · rw [List.foldl_append, ← hp]
    simp [streakStep]
  · unfold runCount at hc ⊢
    rw [runCountFrom_concat, ← hc]
    by_cases hz : c = 0
    · have hl : lastOr false l = false := (streak_cur_eq_zero_iff l).mp (hc1 ▸ hz)
      simp [hz, hl]
    · have hl : lastOr false l = true := by
        cases hlast : lastOr false l with
        | true => rfl
        | false => exact absurd (hc1.trans ((streak_cur_eq_zero_iff l).mpr hlast)) hz
      simp [hz, hl]

/-- A day outside the category: the streak is reset, the maximum and the event counter
stay. -/
theorem runInv_concat_false (l : List Bool) (c m e : Nat) (h : RunInv l c m e) :
    RunInv (l ++ [false]) 0 m e := by
  obtain ⟨hp, hc⟩ := h
  have hm1 : m = (l.foldl streakStep (0, 0)).2 := congrArg Prod.snd hp
  constructor
  · rw [List.foldl_append]
    simp [streakStep, hm1]
  · unfold runCount at hc ⊢
    rw [runCountFrom_concat, ← hc]
    simp

theorem supplyRunInv_init (pr : Params) : SupplyRunInv pr LoopState.init :=
  ⟨runInv_nil, runInv_nil⟩

theorem supplyRunInv_step (pr : Params) (Cj : ℚ) (i : Nat) (P : ℚ) (s : LoopState)
    (hs : SupplyRunInv pr s) : SupplyRunInv pr (loopBody pr Cj i P s) := by
  obtain ⟨hu, hm⟩ := hs
  by_cases h : (dayRecord pr Cj i s.V0 P).V_served < pr.D
  · obtain ⟨a1, -, a3, a4, a5, a6, a7⟩ := loopBody_unmet_day pr Cj i P s h
    constructor
    · rw [loopBody_daily, List.map_append, a1, a3, a4]
      simp only [List.map_cons, List.map_nil, h, decide_True]
      exact runInv_concat_true _ _ _ _ hu
    · rw [loopBody_daily, List.map_append, a5, a6, a7]
      simp only [List.map_cons, List.map_nil, h, not_true_eq_false, decide_False]
      exact runInv_concat_false _ _ _ _ hm
  · obtain ⟨a1, -, a3, a4, a5, a6, a7, -, -, -, -⟩ := loopBody_met_day pr Cj i P s h
    constructor
    · rw [loopBody_daily, List.map_append, a1, a3, a4]
      simp only [List.map_cons, List.map_nil, h, decide_False]
      exact runInv_concat_false _ _ _ _ hu
    · rw [loopBody_daily, List.map_append, a5, a6, a7]
      simp only [List.map_cons, List.map_nil, h, not_false_eq_true, decide_True]
      exact runInv_concat_true _ _ _ _ hm

theorem supplyRunInv_simulate (pr : Params) (Cj : ℚ) (ps : List ℚ) :
    SupplyRunInv pr (simulate pr Cj ps) :=
  simulate_induction pr Cj (SupplyRunInv pr) (supplyRunInv_init pr)
    (fun i P s hs => supplyRunInv_step pr Cj i P s hs) ps

/-- The run counter on a series with three maximal runs. -/
theorem runCount_example :
    runCount [true, true, false, true, false, false, true] = 3 ∧
    longestStreak [true, true, false, true, false, false, true] = 2 := by
  decide

/-- C13. For every rainfall series and capacity, `unmet_max` is the length of the longest
run of consecutive days with `V_served < D` (a run of that length occurs among the
records and no longer one does), `met_max` is the same for the days without
`V_served < D`, and `unmet_event` and `met_event` are the numbers of maximal runs of
the two kinds of day. -/
theorem unmet_met_streaks (pr : Params) (Cj : ℚ) (precipitation : List ℚ) :
    ((summary pr Cj precipitation).supply.unmet_max =
        longestStreak ((simulate pr Cj precipitation).daily.map
          (fun d => decide (d.V_served < pr.D))) ∧
      List.replicate (summary pr Cj precipitation).supply.unmet_max true <:+:
        (simulate pr Cj precipitation).daily.map (fun d => decide (d.V_served < pr.D)) ∧
      ∀ k, List.replicate k true <:+:
          (simulate pr Cj precipitation).daily.map (fun d => decide (d.V_served < pr.D)) →
        k ≤ (summary pr Cj precipitation).supply.unmet_max) ∧
    ((summary pr Cj precipitation).supply.met_max =
        longestStreak ((simulate pr Cj precipitation).daily.map
          (fun d => decide (¬ d.V_served < pr.D))) ∧
      List.replicate (summary pr Cj precipitation).supply.met_max true <:+:
        (simulate pr Cj precipitation).daily.map (fun d => decide (¬ d.V_served < pr.D)) ∧
      ∀ k, List.replicate k true <:+:
          (simulate pr Cj precipitation).daily.map (fun d => decide (¬ d.V_served < pr.D)) →
        k ≤ (summary pr Cj precipitation).supply.met_max) ∧
    (simulate pr Cj precipitation).unmet_event =
      runCount ((simulate pr Cj precipitation).daily.map
        (fun d => decide (d.V_served < pr.D))) ∧
    (simulate pr Cj precipitation).met_event =
      runCount ((simulate pr Cj precipitation).daily.map
        (fun d => decide (¬ d.V_served < pr.D))) := by
  obtain ⟨hu, hm⟩ := supplyRunInv_simulate pr Cj precipitation
  have hu2 : (summary pr Cj precipitation).supply.unmet_max =
      longestStreak ((simulate pr Cj precipitation).daily.map
        (fun d => decide (d.V_served < pr.D))) := congrArg Prod.snd hu.pair
  have hm2 : (summary pr Cj precipitation).supply.met_max =
      longestStreak ((simulate pr Cj precipitation).daily.map
        (fun d => decide (¬ d.V_served < pr.D))) := congrArg Prod.snd hm.pair
  refine ⟨⟨hu2, ?_, ?_⟩, ⟨hm2, ?_, ?_⟩, hu.count, hm.count⟩
  · rw [hu2]; exact (longestStreak_spec _).1
  · rw [hu2]; exact (longestStreak_spec _).2
  · rw [hm2]; exact (longestStreak_spec _).1
  · rw [hm2]; exact (longestStreak_spec _).2

/-! ## The capacity table -/

/-- The conversion of a non-negative `double` to `int` rounds down. -/
theorem toInt_bounds_of_nonneg (q : ℚ) (hq : 0 ≤ q) :
    (toInt q : ℚ) ≤ q ∧ q < (toInt q : ℚ) + 1 := by
  have hden : (0 : Int) < (q.den : Int) := by exact_mod_cast q.pos
  have hnum : 0 ≤ q.num := Rat.num_nonneg.mpr hq
  have hdiv := Int.tdiv_add_tmod q.num q.den
  have h1 := Int.tmod_nonneg (q.den : Int) hnum
  have h2 := Int.tmod_lt_of_pos q.num hden
  have hdq : (0 : ℚ) < (q.den : ℚ) := by exact_mod_cast q.pos
  have hmul : q * (q.den : ℚ) = (q.num : ℚ) := Rat.mul_den_eq_num q
  unfold toInt
  generalize q.num.tdiv (q.den : Int) = n at hdiv
  have hlo : n * (q.den : Int) ≤ q.num := by linarith [mul_comm n (q.den : Int)]
  have hhi : q.num < (n + 1) * (q.den : Int) := by
    have : (n + 1) * (q.den : Int) = (q.den : Int) * n + (q.den : Int) := by ring
    linarith
  have hloq : (n : ℚ) * (q.den : ℚ) ≤ (q.num : ℚ) := by exact_mod_cast hlo
  have hhiq : (q.num : ℚ) < ((n : ℚ) + 1) * (q.den : ℚ) := by exact_mod_cast hhi
  constructor
  · exact le_of_mul_le_mul_right (by rw [hmul]; exact hloq) hdq
  · exact lt_of_mul_lt_mul_right (by rw [hmul]; exact hhiq) (le_of_lt hdq)

theorem toInt_neg (q : ℚ) : toInt (-q) = -toInt q := by
  unfold toInt
  rw [Rat.neg_num, Rat.neg_den, Int.neg_tdiv]

/-- The conversion of a negative `double` to `int` rounds up, toward zero. -/
theorem toInt_bounds_of_nonpos (q : ℚ) (hq : q ≤ 0) :
    q ≤ (toInt q : ℚ) ∧ (toInt q : ℚ) < q + 1 := by
  obtain ⟨h1, h2⟩ := toInt_bounds_of_nonneg (-q) (by linarith)
  rw [toInt_neg] at h1 h2
  push_cast at h1 h2
  constructor <;> linarith

theorem range_of_ne_zero (start end_ step : ℚ) (h : step ≠ 0) :
    range start end_ step = some (toInt ((end_ - start) / step) + 1) := by
  unfold range
  rw [fdiv_of_ne_zero _ _ h]
  rfl

/-- The count `toInt q + 1` of table entries, for the quotient `q = (end - start)/step`
with a positive step: exactly the indices `k` below it have `start + k * step ≤ end`,
provided `end` is not strictly between `start - step` and `start`. -/
theorem index_lt_range_iff (start end_ step : ℚ) (hstep : 0 < step)
    (hend : start ≤ end_ ∨ end_ ≤ start - step) (k : Nat) :
    k < (toInt ((end_ - start) / step) + 1).toNat ↔ start + (k : ℚ) * step ≤ end_ := by
  have hmul : (end_ - start) / step * step = end_ - start := div_mul_cancel₀ _ (ne_of_gt hstep)
  have hk0 : (0 : ℚ) ≤ (k : ℚ) := Nat.cast_nonneg k
  generalize (end_ - start) / step = q at hmul
  rcases hend with h | h
  · have hq : 0 ≤ q := by
      by_contra hneg
      have : q * step < 0 := mul_neg_of_neg_of_pos (not_le.mp hneg) hstep
      linarith
    obtain ⟨b1, b2⟩ := toInt_bounds_of_nonneg q hq
    have hn : (0 : Int) ≤ toInt q := by
      have : ((-1 : Int) : ℚ) < (toInt q : ℚ) := by push_cast; linarith
      have := Int.cast_lt.mp this
      omega
    constructor
    · intro hk
      have hkn : (k : Int) ≤ toInt q := by omega
      have hkq : (k : ℚ) ≤ (toInt q : ℚ) := by exact_mod_cast hkn
      have : (k : ℚ) * step ≤ q * step := mul_le_mul_of_nonneg_right (le_trans hkq b1) (le_of_lt hstep)
      linarith
    · intro hk
      have hkq : (k : ℚ) * step ≤ q * step := by linarith
      have hkq' : (k : ℚ) ≤ q := le_of_mul_le_mul_right hkq hstep
      have : ((k : Int) : ℚ) < ((toInt q + 1 : Int) : ℚ) := by push_cast; linarith
      have := Int.cast_lt.mp this
      omega
  · have hq : q ≤ -1 := by
      by_contra hgt
      have : -1 * step < q * step := mul_lt_mul_of_pos_right (not_le.mp hgt) hstep
      linarith
    obtain ⟨-, b2⟩ := toInt_bounds_of_nonpos q (by linarith)
    have hn : toInt q < 0 := by
      have : (toInt q : ℚ) < ((0 : Int) : ℚ) := by push_cast; linarith
      exact Int.cast_lt.mp this
    constructor
    · intro hk
      omega
    · intro hk
      have : 0 ≤ (k : ℚ) * step := mul_nonneg hk0 (le_of_lt hstep)
      linarith

/-- C15 (as stated, refuted). With start 1, end 0.5 and step 1 no value `start + k * step`
is at most `end`, yet the table holds one capacity, `start` itself, which exceeds `end`:
the quotient -0.5 is truncated toward zero, so `range` is 1. -/
theorem capacities_end_below_start :
    range 1 (1 / 2) 1 = some 1 ∧ capacities 1 (1 / 2) 1 = some [1] ∧
      ¬ ((1 : ℚ) + ((0 : Nat) : ℚ) * 1 ≤ 1 / 2) := by
  decide!

/-- C15 (amended). For a positive step and an end that is at least the start, or at most
`start - step`, the capacity table is the ascending sequence of all values
`start + k * step` with `k ≥ 0` and `start + k * step ≤ end`: an index `k` is in the
table exactly when `start + k * step ≤ end`, every listed capacity is at most `end`, the
table is strictly increasing, and `start + range * step > end`. -/
theorem capacities_ascending_up_to_end (start end_ step : ℚ) (hstep : 0 < step)
    (hend : start ≤ end_ ∨ end_ ≤ start - step) :
    ∃ r : Int, range start end_ step = some r ∧
      capacities start end_ step =
        some ((List.range r.toNat).map (fun (k : Nat) => start + (k : ℚ) * step)) ∧
      (∀ k : Nat, k < r.toNat ↔ start + (k : ℚ) * step ≤ end_) ∧
      (∀ c ∈ (List.range r.toNat).map (fun (k : Nat) => start + (k : ℚ) * step), c ≤ end_) ∧
      ((List.range r.toNat).map (fun (k : Nat) => start + (k : ℚ) * step)).Pairwise (· < ·) ∧
      end_ < start + (r : ℚ) * step := by
  have hr := range_of_ne_zero start end_ step (ne_of_gt hstep)
  have hkey := index_lt_range_iff start end_ step hstep hend
  refine ⟨toInt ((end_ - start) / step) + 1, hr, ?_, hkey, ?_, ?_, ?_⟩
  · unfold capacities
    rw [hr]
    rfl
  · intro c hc
    obtain ⟨k, hk, rfl⟩ := List.mem_map.mp hc
    exact (hkey k).mp (List.mem_range.mp hk)
  · rw [List.pairwise_map]
    refine (List.pairwise_lt_range _).imp ?_
    intro a b hab
    have : (a : ℚ) < (b : ℚ) := by exact_mod_cast hab
    have := mul_lt_mul_of_pos_right this hstep
    linarith
  · have hmul : (end_ - start) / step * step = end_ - start :=
      div_mul_cancel₀ _ (ne_of_gt hstep)
    have hlt : (end_ - start) / step < ((toInt ((end_ - start) / step) + 1 : Int) : ℚ) := by
      push_cast
      rcases le_total 0 ((end_ - start) / step) with h | h
      · exact (toInt_bounds_of_nonneg _ h).2
      · have := (toInt_bounds_of_nonpos _ h).1
        linarith
    have := mul_lt_mul_of_pos_right hlt hstep
    linarith

/-- Witness for C15: the sweep of `main`, from 0.25 to 35 in steps of 0.05. -/
theorem capacities_ascending_up_to_end_witness :
    ∃ r : Int, range (1 / 4) 35 (5 / 100) = some r ∧
      capacities (1 / 4) 35 (5 / 100) =
        some ((List.range r.toNat).map (fun (k : Nat) => 1 / 4 + (k : ℚ) * (5 / 100))) ∧
      (∀ k : Nat, k < r.toNat ↔ 1 / 4 + (k : ℚ) * (5 / 100) ≤ 35) ∧
      (∀ c ∈ (List.range r.toNat).map (fun (k : Nat) => 1 / 4 + (k : ℚ) * (5 / 100)), c ≤ 35) ∧
      ((List.range r.toNat).map (fun (k : Nat) => 1 / 4 + (k : ℚ) * (5 / 100))).Pairwise (· < ·) ∧
      (35 : ℚ) < 1 / 4 + (r : ℚ) * (5 / 100) :=
  capacities_ascending_up_to_end (1 / 4) 35 (5 / 100) (by norm_num) (Or.inl (by norm_num))

/-! ## The sweep on an empty rainfall series -/

/-- C14 (as stated, refuted). On an empty rainfall series the sweep of `main` does not
stop: it writes a summary for each of its 696 capacities, and in the first of them (as
in all) the temporal reliability, the volumetric reliability and the total-failure
fraction are the non-finite result of a division by `N = 0`. -/
theorem empty_series_is_swept :
    mainSweep [] ≠ none ∧ mainSweep [] ≠ some [] ∧
    (mainSweep []).map List.length = some 696 ∧
    (mainSweep []).map (fun out => out.head?.map
        (fun sm => (sm.reliability.temp_rel, sm.reliability.vol_rel, sm.reliability.failure))) =
      some (some (none, none, none)) := by
  decide!

/-- The summary of any capacity on the empty series, field by field where the value is
a number. -/
theorem summary_empty_series (pr : Params) (Cj : ℚ) :
    (summary pr Cj []).reliability.days_tot = 0 ∧
    (summary pr Cj []).reliability.C = Cj ∧
    (summary pr Cj []).reliability.drought_max = 0 ∧
    (summary pr Cj []).reliability.o_rel = some 0 ∧
    (summary pr Cj []).supply.failed_max = 0 ∧
    (summary pr Cj []).supply.failed_average = some 0 ∧
    (summary pr Cj []).supply.unmet_max = 0 ∧
    (summary pr Cj []).supply.unmet_average = some 0 ∧
    (summary pr Cj []).supply.met_max = 0 ∧
    (summary pr Cj []).supply.met_average = some 0 ∧
    (summary pr Cj []).overflow.ov_days_max = 0 ∧
    (summary pr Cj []).overflow.ov_max = 0 := by
  refine ⟨rfl, rfl, rfl, ?_, rfl, ?_, rfl, ?_, rfl, ?_, rfl, ?_⟩
  · show (if (0 : ℚ) > 0 then fdiv 0 0 else some 0) = some 0
    rw [if_neg (lt_irrefl 0)]
  · exact (guarded_average 0 0).1 rfl
  · exact (guarded_average 0 0).1 rfl
  · exact (guarded_average 0 0).1 rfl
  · show toInt 0 = 0
    decide

/-- C14 (amended). On an empty rainfall series the sweep does not fail: whenever the
capacity table exists it yields one summary per capacity, in the order of the table, and
in each one the day count, the longest drought, the streak maxima and `ov_max` are 0,
the guarded supply averages are 0 and the overflow fraction is 0. -/
theorem sweep_empty_series (pr : Params) (start end_ step : ℚ) :
    (∀ Cs : List ℚ, capacities start end_ step = some Cs →
      sweep pr start end_ step [] = some (Cs.map (fun Cj => summary pr Cj [])) ∧
      ((Cs.map (fun Cj => summary pr Cj [])).length = Cs.length)) ∧
    (∀ Cj : ℚ,
      (summary pr Cj []).reliability.days_tot = 0 ∧
      (summary pr Cj []).reliability.C = Cj ∧
      (summary pr Cj []).reliability.drought_max = 0 ∧
      (summary pr Cj []).reliability.o_rel = some 0 ∧
      (summary pr Cj []).supply.failed_max = 0 ∧
      (summary pr Cj []).supply.failed_average = some 0 ∧
      (summary pr Cj []).supply.unmet_max = 0 ∧
      (summary pr Cj []).supply.unmet_average = some 0 ∧
      (summary pr Cj []).supply.met_max = 0 ∧
      (summary pr Cj []).supply.met_average = some 0 ∧
      (summary pr Cj []).overflow.ov_days_max = 0 ∧
      (summary pr Cj []).overflow.ov_max = 0) := by
  refine ⟨fun Cs hCs => ⟨?_, List.length_map _ _⟩, fun Cj => summary_empty_series pr Cj⟩
  unfold sweep
  rw [hCs]
  rfl

/-! ## The truncated overflow maximum -/

/-- C17. Under the constants of `main` with capacity 0.25, the series 19, 19, 0, 19 mm
has two overflow events, with total losses 0.4035 + 0.6535 = 1.057 and 0.614. The running
maximum `O_vol_max` is the larger total, 1.057, but the `int` field `ov_max` of the
summary holds its truncation, 1. -/
theorem ov_max_is_truncated :
    (simulate sydney (1 / 4) [19, 19, 0, 19]).daily.map (fun d => d.O_loss) =
      [807 / 2000, 1307 / 2000, 0, 307 / 500] ∧
    (simulate sydney (1 / 4) [19, 19, 0, 19]).O_vol_max = 1057 / 1000 ∧
    (summary sydney (1 / 4) [19, 19, 0, 19]).overflow.ov_max = 1 ∧
    ((summary sydney (1 / 4) [19, 19, 0, 19]).overflow.ov_max : ℚ) ≠ 1057 / 1000 := by
  decide!

/-! ## Monotonicity in the capacity -/

/-- A day that starts with at least as much water in a tank at least as large serves and
stores at least as much. -/
theorem waterbalance_mono (d d' : Daily) (V0 V0' P_d A_r RC FF f_m D C C' : ℚ)
    (hV : V0 ≤ V0') (hC : C ≤ C') :
    (waterbalance d V0 P_d A_r RC FF f_m D C).V_served ≤
      (waterbalance d' V0' P_d A_r RC FF f_m D C').V_served ∧
    (waterbalance d V0 P_d A_r RC FF f_m D C).V_stored ≤
      (waterbalance d' V0' P_d A_r RC FF f_m D C').V_stored ∧
    (waterbalance d V0 P_d A_r RC FF f_m D C).D_met ≤
      (waterbalance d' V0' P_d A_r RC FF f_m D C').D_met := by
  have hin : (waterbalance d V0 P_d A_r RC FF f_m D C).V_in =
      (waterbalance d' V0' P_d A_r RC FF f_m D C').V_in := rfl
  have hsv := waterbalance_V_served d V0 P_d A_r RC FF f_m D C
  have hsv' := waterbalance_V_served d' V0' P_d A_r RC FF f_m D C'
  have hol := waterbalance_O_loss d V0 P_d A_r RC FF f_m D C
  have hol' := waterbalance_O_loss d' V0' P_d A_r RC FF f_m D C'
  have hst := waterbalance_V_stored d V0 P_d A_r RC FF f_m D C
  have hst' := waterbalance_V_stored d' V0' P_d A_r RC FF f_m D C'
  rw [waterbalance_D_met, waterbalance_D_met]
  rw [← hin] at hsv' hol' hst'
  generalize (waterbalance d V0 P_d A_r RC FF f_m D C).V_stored = st at hst ⊢
  generalize (waterbalance d' V0' P_d A_r RC FF f_m D C').V_stored = st' at hst' ⊢
  generalize (waterbalance d V0 P_d A_r RC FF f_m D C).O_loss = ol at hol hst
  generalize (waterbalance d' V0' P_d A_r RC FF f_m D C').O_loss = ol' at hol' hst'
  generalize (waterbalance d V0 P_d A_r RC FF f_m D C).V_served = sv at hsv hol hst ⊢
  generalize (waterbalance d' V0' P_d A_r RC FF f_m D C').V_served = sv' at hsv' hol' hst' ⊢
  generalize (waterbalance d V0 P_d A_r RC FF f_m D C).V_in = vin at hsv hsv' hol hol' hst hst'
  have h1 : sv ≤ sv' := by
    rw [hsv, hsv']; unfold min; split_ifs <;> linarith
  have h1D : sv' ≤ D := hsv' ▸ min_le_right _ _
  have hrest : V0 + vin - sv ≤ V0' + vin - sv' := by
    rw [hsv, hsv']; unfold min; split_ifs <;> linarith
  refine ⟨h1, ?_, ?_⟩
  · rw [hst, hst', hol, hol']
    unfold max
    split_ifs <;> linarith
  · by_cases h : sv = D
    · have h' : sv' = D := le_antisymm h1D (h ▸ h1)
      rw [if_pos h, if_pos h']
    · rw [if_neg h]
      exact Nat.zero_le _

/-- Day by day, the larger tank stores and serves at least as much, and so do the
accumulated number of fully-met days and the accumulated served volume. -/
theorem simulate_mono (pr : Params) (C1 C2 : ℚ) (hC : C1 ≤ C2) (ps : List ℚ) :
    (simulate pr C1 ps).V0 ≤ (simulate pr C2 ps).V0 ∧
    (simulate pr C1 ps).D_met_sum ≤ (simulate pr C2 ps).D_met_sum ∧
    (simulate pr C1 ps).V_served ≤ (simulate pr C2 ps).V_served ∧
    List.Forall₂ (fun d1 d2 => d1.V_stored ≤ d2.V_stored ∧ d1.V_served ≤ d2.V_served)
      (simulate pr C1 ps).daily (simulate pr C2 ps).daily := by
  induction ps using List.reverseRecOn with
  | nil => exact ⟨le_refl _, le_refl _, le_refl _, List.Forall₂.nil⟩
  | append_singleton l a ih =>
    obtain ⟨h0, h1, h2, h3⟩ := ih
    obtain ⟨k1, k2, k3⟩ := waterbalance_mono
      { day := l.length + 1, C := 0, V_in := 0, V_served := 0, V_stored := 0, O_loss := 0,
        D_met := 0, D_failed := 0 }
      { day := l.length + 1, C := 0, V_in := 0, V_served := 0, V_stored := 0, O_loss := 0,
        D_met := 0, D_failed := 0 }
      (simulate pr C1 l).V0 (simulate pr C2 l).V0 a pr.A_r pr.RC pr.FF pr.f_m pr.D C1 C2 h0 hC
    rw [simulate_concat, simulate_concat]
    refine ⟨?_, ?_, ?_, ?_⟩
    · rw [loopBody_V0, loopBody_V0]
      exact k2
    · rw [loopBody_D_met_sum, loopBody_D_met_sum]
      exact Nat.add_le_add h1 k3
    · rw [(loopBody_totals pr C1 _ a _).2.1, (loopBody_totals pr C2 _ a _).2.1]
      exact add_le_add h2 k1
    · rw [loopBody_daily, loopBody_daily]
      exact List.rel_append h3 (List.Forall₂.cons ⟨k2, k1⟩ List.Forall₂.nil)

/-- C19 (as stated, refuted). For the capacities 0.25 ≤ 0.5 the reliabilities are not
always comparable numbers: on the empty series (constants of `main`) the temporal and
the volumetric reliability of both capacities are the non-finite result of a division by
`N = 0`, and with demand 0 on a one-day series the volumetric reliability of both is the
non-finite result of a division by `D * N = 0`. -/
theorem reliability_undefined_for_both_capacities :
    (summary sydney (1 / 4) []).reliability.temp_rel = none ∧
    (summary sydney (1 / 2) []).reliability.temp_rel = none ∧
    (summary sydney (1 / 4) []).reliability.vol_rel = none ∧
    (summary sydney (1 / 2) []).reliability.vol_rel = none ∧
    (summary { sydney with D := 0 } (1 / 4) [0]).reliability.vol_rel = none ∧
    (summary { sydney with D := 0 } (1 / 2) [0]).reliability.vol_rel = none ∧
    ¬ (∃ t1 t2 : ℚ, (summary sydney (1 / 4) []).reliability.temp_rel = some t1 ∧
        (summary sydney (1 / 2) []).reliability.temp_rel = some t2 ∧ t1 ≤ t2) := by
  have h1 : (summary sydney (1 / 4) []).reliability.temp_rel = none := by decide!
  refine ⟨h1, by decide!, by decide!, by decide!, by decide!, by decide!, ?_⟩
  rintro ⟨t1, t2, ht1, -, -⟩
  rw [h1] at ht1
  exact Option.noConfusion ht1

/-- C19 (amended). For a non-negative rainfall series, non-negative physical parameters
with filter loss at most 1 and capacities `C1 ≤ C2`, the simulations started from empty
storage have on every day `V_stored(C1) ≤ V_stored(C2)` and
`V_served(C1) ≤ V_served(C2)`; the number of fully-met days for `C2` is at least that for
`C1`; for a non-empty series the temporal reliabilities are numbers in that order, and
for a non-empty series and a positive demand so are the volumetric reliabilities. -/
theorem capacity_monotone (pr : Params) (C1 C2 : ℚ) (precipitation : List ℚ)
    (_hP : ∀ x ∈ precipitation, 0 ≤ x) (_hA : 0 ≤ pr.A_r) (_hRC : 0 ≤ pr.RC)
    (_hFF : 0 ≤ pr.FF) (_hfm0 : 0 ≤ pr.f_m) (_hfm1 : pr.f_m ≤ 1) (_hD : 0 ≤ pr.D)
    (hC : C1 ≤ C2) :
    List.Forall₂ (fun d1 d2 => d1.V_stored ≤ d2.V_stored ∧ d1.V_served ≤ d2.V_served)
      (simulate pr C1 precipitation).daily (simulate pr C2 precipitation).daily ∧
    (simulate pr C1 precipitation).daily.countP (fun d => ¬ d.V_served < pr.D) ≤
      (simulate pr C2 precipitation).daily.countP (fun d => ¬ d.V_served < pr.D) ∧
    (precipitation ≠ [] →
      ∃ t1 t2 : ℚ, (summary pr C1 precipitation).reliability.temp_rel = some t1 ∧
        (summary pr C2 precipitation).reliability.temp_rel = some t2 ∧ t1 ≤ t2) ∧
    (precipitation ≠ [] → 0 < pr.D →
      ∃ v1 v2 : ℚ, (summary pr C1 precipitation).reliability.vol_rel = some v1 ∧
        (summary pr C2 precipitation).reliability.vol_rel = some v2 ∧ v1 ≤ v2) := by
  obtain ⟨-, h1, h2, h3⟩ := simulate_mono pr C1 C2 hC precipitation
  refine ⟨h3, ?_, ?_, ?_⟩
  · rw [← (supplyInv_simulate pr C1 precipitation).met_sum,
      ← (supplyInv_simulate pr C2 precipitation).met_sum]
    exact h1
  · intro hne
    have hN : (0 : ℚ) < (precipitation.length : ℚ) :=
      Nat.cast_pos.mpr (List.length_pos.mpr hne)
    refine ⟨_, _, fdiv_of_ne_zero _ _ (ne_of_gt hN), fdiv_of_ne_zero _ _ (ne_of_gt hN), ?_⟩
    exact div_le_div_of_nonneg_right (by exact_mod_cast h1) (le_of_lt hN)
  · intro hne hD
    have hN : (0 : ℚ) < (precipitation.length : ℚ) :=
      Nat.cast_pos.mpr (List.length_pos.mpr hne)
    have hDN : 0 < pr.D * (precipitation.length : ℚ) := mul_pos hD hN
    refine ⟨_, _, fdiv_of_ne_zero _ _ (ne_of_gt hDN), fdiv_of_ne_zero _ _ (ne_of_gt hDN), ?_⟩
    exact div_le_div_of_nonneg_right h2 (le_of_lt hDN)

/-- Witness for C19: three days under the constants of `main`, capacities 0.25 and 0.5. -/
theorem capacity_monotone_witness :
    List.Forall₂ (fun d1 d2 => d1.V_stored ≤ d2.V_stored ∧ d1.V_served ≤ d2.V_served)
      (simulate sydney (1 / 4) [0, 19, 1]).daily (simulate sydney (1 / 2) [0, 19, 1]).daily ∧
    (simulate sydney (1 / 4) [0, 19, 1]).daily.countP (fun d => ¬ d.V_served < sydney.D) ≤
      (simulate sydney (1 / 2) [0, 19, 1]).daily.countP (fun d => ¬ d.V_served < sydney.D) ∧
    (([0, 19, 1] : List ℚ) ≠ [] →
      ∃ t1 t2 : ℚ, (summary sydney (1 / 4) [0, 19, 1]).reliability.temp_rel = some t1 ∧
        (summary sydney (1 / 2) [0, 19, 1]).reliability.temp_rel = some t2 ∧ t1 ≤ t2) ∧
    (([0, 19, 1] : List ℚ) ≠ [] → 0 < sydney.D →
      ∃ v1 v2 : ℚ, (summary sydney (1 / 4) [0, 19, 1]).reliability.vol_rel = some v1 ∧
        (summary sydney (1 / 2) [0, 19, 1]).reliability.vol_rel = some v2 ∧ v1 ≤ v2) :=
  capacity_monotone sydney (1 / 4) (1 / 2) [0, 19, 1]
    (by
      intro x hx
      simp only [List.mem_cons, List.mem_singleton, List.not_mem_nil, or_false] at hx
      rcases hx with rfl | rfl | rfl <;> norm_num)
    (by unfold sydney; norm_num) (by unfold sydney; norm_num) (by unfold sydney; norm_num)
    (by unfold sydney; norm_num) (by unfold sydney; norm_num) (by unfold sydney; norm_num)
    (by norm_num)

/-! ## Temporal and volumetric reliability -/

theorem volumeInv_nil : VolumeInv [] 0 0 := by
  refine ⟨⟨[], List.nil_suffix, by simp, rfl⟩, ?_, ⟨[], List.nil_infix, by simp, rfl⟩, ?_⟩
  · intro b hb _
    rw [List.eq_nil_of_suffix_nil hb]
    exact le_refl _
  · intro b hb _
    rw [List.eq_nil_of_infix_nil hb]
    exact le_refl _

/-- A day with a positive loss extends the running event total. -/
theorem volumeInv_concat_pos (l : List ℚ) (cs m x : ℚ) (hx : 0 < x) (h : VolumeInv l cs m) :
    VolumeInv (l ++ [x]) (cs + x) (if cs + x > m then cs + x else m) := by
  obtain ⟨⟨b, hb, hbpos, hbsum⟩, hcb, ⟨c, hc, hcpos, hcsum⟩, hmb⟩ := h
  have hcs0 : 0 ≤ cs := hcb [] List.nil_suffix (by simp)
  have hsuf : ∃ b', b' <:+ l ++ [x] ∧ (∀ y ∈ b', 0 < y) ∧ b'.sum = cs + x := by
    obtain ⟨t, ht⟩ := hb
    refine ⟨b ++ [x], ⟨t, by rw [← List.append_assoc, ht]⟩, ?_, ?_⟩
    · intro y hy
      rw [List.mem_append, List.mem_singleton] at hy
      rcases hy with hy | rfl
      · exact hbpos y hy
      · exact hx
    · rw [List.sum_append, hbsum]
      simp
  have hcur : ∀ b', b' <:+ l ++ [x] → (∀ y ∈ b', 0 < y) → b'.sum ≤ cs + x := by
    intro b' hb' hpos
    rcases List.suffix_concat_iff.mp hb' with rfl | ⟨t, rfl, ht⟩
    · simp only [List.sum_nil]
      linarith
    · have := hcb t ht (fun y hy => hpos y (List.mem_append_left _ hy))
      rw [List.sum_append]
      simp only [List.sum_cons, List.sum_nil, add_zero]
      linarith
  refine ⟨hsuf, hcur, ?_, ?_⟩
  · split_ifs with hgt
    · obtain ⟨b', hb', hpos', hsum'⟩ := hsuf
      exact ⟨b', hb'.isInfix, hpos', hsum'⟩
    · exact ⟨c, hc.trans (List.prefix_append l [x]).isInfix, hcpos, hcsum⟩
  · intro b' hb' hpos
    have hle : b'.sum ≤ cs + x ∨ b'.sum ≤ m := by
      rcases List.infix_concat_iff.mp hb' with hs | hi
      · exact Or.inl (hcur b' hs hpos)
      · exact Or.inr (hmb b' hi hpos)
    split_ifs with hgt <;> rcases hle with hle | hle <;> linarith

/-- A day without a positive loss ends the event: the running total restarts at 0. -/
theorem volumeInv_concat_nonpos (l : List ℚ) (cs m x : ℚ) (hx : ¬ 0 < x)
    (h : VolumeInv l cs m) : VolumeInv (l ++ [x]) 0 m := by
  obtain ⟨-, -, ⟨c, hc, hcpos, hcsum⟩, hmb⟩ := h
  have hm0 : 0 ≤ m := hmb [] List.nil_infix (by simp)
  have hcur : ∀ b', b' <:+ l ++ [x] → (∀ y ∈ b', 0 < y) → b'.sum ≤ 0 := by
    intro b' hb' hpos
    rcases List.suffix_concat_iff.mp hb' with rfl | ⟨t, rfl, -⟩
    · simp
    · exact absurd (hpos x (List.mem_append_right _ (List.mem_singleton.mpr rfl))) hx
  refine ⟨⟨[], List.nil_suffix, by simp, rfl⟩, hcur,
    ⟨c, hc.trans (List.prefix_append l [x]).isInfix, hcpos, hcsum⟩, ?_⟩
  intro b' hb' hpos
  rcases List.infix_concat_iff.mp hb' with hs | hi
  · exact le_trans (hcur b' hs hpos) hm0
  · exact hmb b' hi hpos

theorem volumeInv_simulate (pr : Params) (Cj : ℚ) (ps : List ℚ) :
    VolumeInv ((simulate pr Cj ps).daily.map (fun d => d.O_loss))
      (simulate pr Cj ps).O_vol_sum (simulate pr Cj ps).O_vol_max := by
  apply simulate_induction pr Cj
    (fun s => VolumeInv (s.daily.map (fun d => d.O_loss)) s.O_vol_sum s.O_vol_max)
  · exact volumeInv_nil
  · intro i P s ih
    rw [loopBody_daily, List.map_append]
    by_cases h : (dayRecord pr Cj i s.V0 P).O_loss > 0
    · obtain ⟨-, -, -, -, a5, a6⟩ := loopBody_overflow_day pr Cj i P s h
      rw [a5, a6]
      exact volumeInv_concat_pos _ _ _ _ h ih
    · obtain ⟨-, -, -, -, a5, a6⟩ := loopBody_dry_day pr Cj i P s h
      rw [a5, a6]
      exact volumeInv_concat_nonpos _ _ _ _ h ih

/-- The running maximum `O_vol_max` at the end of the day loop is the largest total loss
of a block of consecutive overflow days, that is of one overflow event (0 without an
overflow day); the field `ov_max` of the summary is its conversion to `int`. -/
theorem O_vol_max_largest_event (pr : Params) (Cj : ℚ) (ps : List ℚ) :
    (∃ b, b <:+: (simulate pr Cj ps).daily.map (fun d => d.O_loss) ∧ (∀ x ∈ b, 0 < x) ∧
      b.sum = (simulate pr Cj ps).O_vol_max) ∧
    (∀ b, b <:+: (simulate pr Cj ps).daily.map (fun d => d.O_loss) → (∀ x ∈ b, 0 < x) →
      b.sum ≤ (simulate pr Cj ps).O_vol_max) ∧
    (summary pr Cj ps).overflow.ov_max = toInt (simulate pr Cj ps).O_vol_max :=
  ⟨(volumeInv_simulate pr Cj ps).max_occurs, (volumeInv_simulate pr Cj ps).max_bound, rfl⟩

/-! ## The exact definitions are the rounded ones without rounding -/

theorem waterbalanceR_id (d : Daily) (V0 P_d A_r RC FF f_m D C : ℚ) :
    waterbalanceR id d V0 P_d A_r RC FF f_m D C = waterbalance d V0 P_d A_r RC FF f_m D C :=
  rfl

theorem loopBodyR_id (pr : Params) (Cj : ℚ) (i : Nat) (P : ℚ) (s : LoopState) :
    loopBodyR id pr Cj i P s = loopBody pr Cj i P s := rfl

theorem dayLoopR_id (pr : Params) (Cj : ℚ) (ps : List ℚ) :
    ∀ (i : Nat) (s : LoopState), dayLoopR id pr Cj i ps s = dayLoop pr Cj i ps s := by
  induction ps with
  | nil => intro i s; rfl
  | cons P rest ih =>
    intro i s
    show dayLoopR id pr Cj (i + 1) rest (loopBodyR id pr Cj i P s) = _
    rw [ih, loopBodyR_id]
    rfl

theorem simulateR_id (pr : Params) (Cj : ℚ) (ps : List ℚ) :
    simulateR id pr Cj ps = simulate pr Cj ps :=
  dayLoopR_id pr Cj ps 0 LoopState.init

theorem summaryR_id (pr : Params) (Cj : ℚ) (ps : List ℚ) :
    summaryR id pr Cj ps = summary pr Cj ps := by
  unfold summaryR summary
  rw [simulateR_id]
  rfl

/-- Values of `rnd64`: the doubles of the decimal literals 0.1, 0.85 and 0.0395, numbers
that are doubles already, and ties going to the even significand. -/
theorem rnd64_values :
    rnd64 (1 / 10) = 3602879701896397 / 36028797018963968 ∧
    rnd64 (85 / 100) = 7656119366529843 / 9007199254740992 ∧
    rnd64 (395 / 10000) = 5692549928996307 / 144115188075855872 ∧
    rnd64 0 = 0 ∧ rnd64 (1 / 4) = 1 / 4 ∧ rnd64 19 = 19 ∧ rnd64 (-3 / 8) = -3 / 8 ∧
    rnd64 (2 ^ 53 + 1) = 2 ^ 53 ∧ rnd64 (2 ^ 53 + 3) = 2 ^ 53 + 4 ∧
    rnd64 (-(2 ^ 53 + 1)) = -(2 ^ 53) := by
  decide!

/-! ## The failure average, the mass balance and the reliabilities in doubles -/

/-- C6. On `failureGapSeries` (constants of `main`, capacity 0.25) the failure category
has two days in two streaks of one day each, so its average streak length is 1; the
program counts one event (`failed_event = 1`, the streak counter is not reset on the
fully-met day 2) and reports `failed_average = 2`. The same happens in doubles on the
file text 0, 1.915032679738562, 0. -/
theorem failed_average_counts_one_event :
    (simulate sydney (1 / 4) failureGapSeries).daily.map (fun d => (d.D_failed, d.D_met)) =
      [(1, 0), (0, 1), (1, 0)] ∧
    (simulate sydney (1 / 4) failureGapSeries).daily.countP (fun d => d.D_failed = 1) = 2 ∧
    runCount ((simulate sydney (1 / 4) failureGapSeries).daily.map
      (fun d => decide (d.D_failed = 1))) = 2 ∧
    (simulate sydney (1 / 4) failureGapSeries).failed_event = 1 ∧
    (summary sydney (1 / 4) failureGapSeries).supply.failed_average = some 2 ∧
    (summary sydney (1 / 4) failureGapSeries).supply.failed_average ≠
      some ((((simulate sydney (1 / 4) failureGapSeries).daily.countP
          (fun d => d.D_failed = 1) : Nat) : ℚ) /
        ((runCount ((simulate sydney (1 / 4) failureGapSeries).daily.map
          (fun d => decide (d.D_failed = 1))) : Nat) : ℚ)) ∧
    (simulateR rnd64 sydney64 (1 / 4)
        [0, rnd64 (1915032679738562 / 1000000000000000), 0]).daily.map
        (fun d => (d.D_failed, d.D_met)) = [(1, 0), (0, 1), (1, 0)] ∧
    (simulateR rnd64 sydney64 (1 / 4)
        [0, rnd64 (1915032679738562 / 1000000000000000), 0]).failed_event = 1 ∧
    (summaryR rnd64 sydney64 (1 / 4)
        [0, rnd64 (1915032679738562 / 1000000000000000), 0]).supply.failed_average = some 2 ∧
    (summaryR rnd64 sydney64 (1 / 4)
        [0, rnd64 (1915032679738562 / 1000000000000000), 0]).supply.failed_max = 2 := by
  decide!

/-- For the unmet and the met category the average of the Supply summary is the average
streak length: the number of days of the category divided by the number of its maximal
runs, and 0 when there is no run. -/
theorem unmet_met_averages_by_runs (pr : Params) (Cj : ℚ) (ps : List ℚ) :
    (runCount ((simulate pr Cj ps).daily.map (fun d => decide (d.V_served < pr.D))) = 0 →
      (summary pr Cj ps).supply.unmet_average = some 0) ∧
    (runCount ((simulate pr Cj ps).daily.map (fun d => decide (d.V_served < pr.D))) ≠ 0 →
      (summary pr Cj ps).supply.unmet_average =
        some ((((simulate pr Cj ps).daily.countP (fun d => d.V_served < pr.D) : Nat) : ℚ) /
          ((runCount ((simulate pr Cj ps).daily.map
            (fun d => decide (d.V_served < pr.D))) : Nat) : ℚ))) ∧
    (runCount ((simulate pr Cj ps).daily.map (fun d => decide (¬ d.V_served < pr.D))) = 0 →
      (summary pr Cj ps).supply.met_average = some 0) ∧
    (runCount ((simulate pr Cj ps).daily.map (fun d => decide (¬ d.V_served < pr.D))) ≠ 0 →
      (summary pr Cj ps).supply.met_average =
        some ((((simulate pr Cj ps).daily.countP (fun d => ¬ d.V_served < pr.D) : Nat) : ℚ) /
          ((runCount ((simulate pr Cj ps).daily.map
            (fun d => decide (¬ d.V_served < pr.D))) : Nat) : ℚ))) := by
  have inv := supplyInv_simulate pr Cj ps
  obtain ⟨hu, hm⟩ := supplyRunInv_simulate pr Cj ps
  rw [← hu.count, ← hm.count, ← inv.unmet_sum, ← inv.met_sum]
  exact ⟨(guarded_average _ _).1, (guarded_average _ _).2, (guarded_average _ _).1,
    (guarded_average _ _).2⟩

end WaterBalance
